import Mathlib

/-!
Shallow embedding of the inventory / ledger core of the shafaf web-base
application (src/tauri/src/lib.rs), together with proofs about the claims of
its specification.  Rust `f64` values are modelled as exact rationals `ℚ`;
`f64::round` (round half away from zero) is modelled by `rustRound`.
Database tables are modelled as lists of typed rows, and each Tauri command
becomes a function threading an explicit `DB` state.  Fallible commands
return `Except String α × DB`: the returned state records exactly the
mutations performed before a failure, since the source issues its SQL
statements one by one without a wrapping transaction.
-/

namespace Shafaf

/-- Model of Rust `f64::round`: round to the nearest integer, ties away from
zero. -/
def rustRound (x : ℚ) : ℤ :=
  if 0 ≤ x then ⌊x + 1/2⌋ else -⌊-x + 1/2⌋

/-- `round2` from lib.rs: round to 2 decimal places, `(x * 100.0).round() / 100.0`. -/
def round2 (x : ℚ) : ℚ := (rustRound (x * 100) : ℚ) / 100

/-- `round6` from lib.rs: round to 6 decimal places, `(x * 1_000_000.0).round() / 1_000_000.0`. -/
def round6 (x : ℚ) : ℚ := (rustRound (x * 1000000) : ℚ) / 1000000

/-- The floating slack `1e-9` used by the batch-stock validations. -/
def stockEps : ℚ := 1 / 1000000000

/-- A row of the `units` table (`ratio` is nullable; `COALESCE(ratio, 1)` is
applied at every read). -/
structure UnitRow where
  id : Int
  ratio : Option ℚ
deriving Repr, DecidableEq

/-- A row of the `purchase_items` table (a batch), restricted to the columns
the modelled commands read. -/
structure PurchaseItemRow where
  id : Int
  product_id : Int
  amount : ℚ
  unit_id : Int
deriving Repr, DecidableEq

/-- A row of the `sale_items` table (a consumption). -/
structure SaleItemRow where
  id : Int
  sale_id : Int
  product_id : Int
  unit_id : Int
  per_price : ℚ
  amount : ℚ
  total : ℚ
  purchase_item_id : Option Int
  sale_type : Option String
  discount_type : Option String
  discount_value : ℚ
deriving Repr, DecidableEq

/-- A row of the `sales` table. -/
structure SaleRow where
  id : Int
  customer_id : Int
  date : String
  notes : Option String
  currency_id : Option Int
  exchange_rate : ℚ
  total_amount : ℚ
  base_amount : ℚ
  paid_amount : ℚ
  additional_cost : ℚ
  order_discount_type : Option String
  order_discount_value : ℚ
  order_discount_amount : ℚ
deriving Repr, DecidableEq

/-- A row of the `sale_payments` table. -/
structure SalePaymentRow where
  sale_id : Int
  currency_id : Int
  exchange_rate : ℚ
  amount : ℚ
  base_amount : ℚ
  date : String
deriving Repr, DecidableEq

/-- A row of the `sale_service_items` table. -/
structure SaleServiceItemRow where
  sale_id : Int
  service_id : Int
  name : String
  price : ℚ
  quantity : ℚ
  total : ℚ
  discount_type : Option String
  discount_value : ℚ
deriving Repr, DecidableEq

/-- A row of the `sale_additional_costs` table. -/
structure SaleAdditionalCostRow where
  sale_id : Int
  name : String
  amount : ℚ
deriving Repr, DecidableEq

/-- A row of the `currencies` table. -/
structure CurrencyRow where
  id : Int
  name : String
  base : Bool
deriving Repr, DecidableEq

/-- A row of the `accounts` table, restricted to the columns the modelled
commands read. -/
structure AccountRow where
  id : Int
  name : String
  account_type : String
  initial_balance : ℚ
  current_balance : ℚ
deriving Repr, DecidableEq

/-- A row of the `account_transactions` table. -/
structure AccountTransactionRow where
  id : Int
  account_id : Int
  transaction_type : String
  amount : ℚ
  currency : String
  rate : ℚ
  total : ℚ
  transaction_date : String
  is_full : Bool
  notes : Option String
deriving Repr, DecidableEq

/-- A row of the `account_currency_balances` table. -/
structure AccountCurrencyBalanceRow where
  account_id : Int
  currency_id : Int
  balance : ℚ
deriving Repr, DecidableEq

/-- A row of the `journal_entries` table.  Entry numbers are always generated
by the code as `'J'` followed by the zero-padded successor of the maximum
existing number, so the numeric part is stored directly. -/
structure JournalEntryRow where
  id : Int
  entry_number : Int
  entry_date : String
  description : Option String
  reference_type : Option String
  reference_id : Option Int
deriving Repr, DecidableEq

/-- A row of the `journal_entry_lines` table. -/
structure JournalEntryLineRow where
  journal_entry_id : Int
  account_id : Int
  currency_id : Int
  debit_amount : ℚ
  credit_amount : ℚ
  exchange_rate : ℚ
  base_amount : ℚ
  description : Option String
deriving Repr, DecidableEq

/-- The database state: one list of rows per table touched by the modelled
commands, plus the auto-increment counters for the tables whose generated ids
the commands read back. -/
structure DB where
  units : List UnitRow
  purchase_items : List PurchaseItemRow
  sale_items : List SaleItemRow
  sales : List SaleRow
  sale_payments : List SalePaymentRow
  sale_service_items : List SaleServiceItemRow
  sale_additional_costs : List SaleAdditionalCostRow
  currencies : List CurrencyRow
  accounts : List AccountRow
  account_transactions : List AccountTransactionRow
  account_currency_balances : List AccountCurrencyBalanceRow
  journal_entries : List JournalEntryRow
  journal_entry_lines : List JournalEntryLineRow
  next_sale_id : Int
  next_sale_item_id : Int
  next_transaction_id : Int
  next_journal_entry_id : Int
deriving Repr, DecidableEq

/-- Substring test modelling SQL `name LIKE '%pat%'` for a literal pattern. -/
def likeContains (s pat : String) : Bool :=
  (List.range (s.toList.length + 1)).any
    (fun i => ((s.toList.drop i).take pat.toList.length) == pat.toList)

/-- Model of `ORDER BY id DESC LIMIT 1` over a result set: the row with the
greatest key (later rows win ties, matching the scan order of the model). -/
def maxByKey {α : Type} (key : α → Int) : List α → Option α :=
  List.foldl
    (fun acc r =>
      match acc with
      | none => some r
      | some b => if key b ≤ key r then some r else some b)
    none

/-- `get_unit_ratio` (lib.rs:3284): `SELECT COALESCE(ratio, 1) FROM units
WHERE id = ?`, defaulting to 1 when the unit is missing. -/
def get_unit_ratio (db : DB) (unit_id : Int) : ℚ :=
  match db.units.find? (fun u => u.id == unit_id) with
  | some u => u.ratio.getD 1
  | none => 1

/-- `amount_to_base` (lib.rs:3294): convert an amount in a given unit to base
units, `amount * ratio`. -/
def amount_to_base (db : DB) (amount : ℚ) (unit_id : Int) : ℚ :=
  amount * get_unit_ratio db unit_id

/-- `get_batch_remaining_base` (lib.rs:3300): purchased base quantity minus
the base-equivalents of all sale items referencing the batch, clamped at zero
and rounded to 6 decimals; `Err` when the purchase item does not exist. -/
def get_batch_remaining_base (db : DB) (purchase_item_id : Int) :
    Except String ℚ :=
  match db.purchase_items.find? (fun r => r.id == purchase_item_id) with
  | none => .error "Purchase item not found"
  | some pi =>
    let pi_base := amount_to_base db pi.amount pi.unit_id
    let sold_base :=
      ((db.sale_items.filter (fun si => si.purchase_item_id == some purchase_item_id)).map
        (fun si => amount_to_base db si.amount si.unit_id)).sum
    .ok (round6 (max (pi_base - sold_base) 0))

/-- The base-to-display-unit conversion performed by `get_product_stock`
(lib.rs:4107-4116): divide by the unit ratio, returning 0 when the ratio is
within `1e-12` of zero, and round the quotient to 6 decimals. -/
def from_base (db : DB) (base_amount : ℚ) (unit_id : Int) : ℚ :=
  let ratio := get_unit_ratio db unit_id
  if |ratio| < 1 / 1000000000000 then 0 else round6 (base_amount / ratio)

/-- Result of `get_product_stock`. -/
structure ProductStock where
  product_id : Int
  total_base : ℚ
  total_in_unit : Option ℚ
deriving Repr, DecidableEq

/-- `get_product_stock` (lib.rs:4078): sum of `GREATEST(0, purchased_base -
sold_base)` over the product's batches, rounded to 6 decimals, optionally
converted into a requested display unit. -/
def get_product_stock (db : DB) (product_id : Int) (unit_id : Option Int) :
    ProductStock :=
  let total_base := round6
    (((db.purchase_items.filter (fun r => r.product_id == product_id)).map
      (fun pi =>
        let sold_base :=
          ((db.sale_items.filter (fun si => si.purchase_item_id == some pi.id)).map
            (fun si => amount_to_base db si.amount si.unit_id)).sum
        max 0 (amount_to_base db pi.amount pi.unit_id - sold_base))).sum)
  { product_id := product_id
    total_base := total_base
    total_in_unit := unit_id.map (fun uid => from_base db total_base uid) }

/-- `compute_discount_amount` (lib.rs:3325): 0 for a non-positive subtotal or
unrecognized type; `round2(subtotal * clamp(value,0,100) / 100)` for
`percent`; `round2(value.min(subtotal).max(0))` for `fixed`. -/
def compute_discount_amount (subtotal : ℚ) (discount_type : Option String)
    (discount_value : ℚ) : ℚ :=
  if subtotal ≤ 0 then 0
  else
    match discount_type with
    | some t =>
      if t == "percent" then
        let pct := min (max discount_value 0) 100
        round2 (subtotal * pct / 100)
      else if t == "fixed" then
        round2 (max (min discount_value subtotal) 0)
      else 0
    | none => 0

/-- The `UPDATE sales SET total_amount = ...` statement shared by
`create_sale_item` / `update_sale_item` / `delete_sale_item`: recompute the
sale's total from its item and service-item totals, its order discount and
its additional cost. -/
def update_sale_total (db : DB) (sale_id : Int) : DB :=
  let items_total :=
    ((db.sale_items.filter (fun si => si.sale_id == sale_id)).map
      (fun si => si.total)).sum
  let services_total :=
    ((db.sale_service_items.filter (fun s => s.sale_id == sale_id)).map
      (fun s => s.total)).sum
  { db with
    sales := db.sales.map (fun s =>
      if s.id == sale_id then
        { s with total_amount :=
            items_total + services_total - s.order_discount_amount + s.additional_cost }
      else s) }

/-- The message returned by the batch-stock validations. -/
def insufficientStockMsg : String := "    (Insufficient batch stock)"

/-- `create_sale_item` (lib.rs:3914): validate the referenced batch (if any),
insert the row, recompute the sale total and return the created row. -/
def create_sale_item (db : DB) (sale_id product_id unit_id : Int)
    (per_price amount : ℚ) (purchase_item_id : Option Int)
    (sale_type discount_type : Option String) (discount_value : ℚ) :
    Except String SaleItemRow × DB :=
  let validation : Except String Unit :=
    match purchase_item_id with
    | some pid =>
      let sale_amount_base := amount_to_base db amount unit_id
      match get_batch_remaining_base db pid with
      | .error e => .error e
      | .ok remaining_base =>
        if sale_amount_base > remaining_base + stockEps then
          .error insufficientStockMsg
        else .ok ()
    | none => .ok ()
  match validation with
  | .error e => (.error e, db)
  | .ok _ =>
    let line_subtotal := per_price * amount
    let disc := compute_discount_amount line_subtotal discount_type discount_value
    let total := round2 (line_subtotal - disc)
    let item : SaleItemRow :=
      { id := db.next_sale_item_id, sale_id := sale_id, product_id := product_id
        unit_id := unit_id, per_price := per_price, amount := amount
        total := total, purchase_item_id := purchase_item_id
        sale_type := sale_type, discount_type := discount_type
        discount_value := discount_value }
    let db1 : DB :=
      { db with
        sale_items := db.sale_items ++ [item]
        next_sale_item_id := db.next_sale_item_id + 1 }
    let db2 := update_sale_total db1 sale_id
    match maxByKey (fun si => si.id)
        (db2.sale_items.filter
          (fun si => si.sale_id == sale_id && si.product_id == product_id)) with
    | some created => (.ok created, db2)
    | none => (.error "Failed to retrieve created sale item", db2)

/-- `update_sale_item` (lib.rs:4209): validate against the batch's remaining
quantity plus the add-back of the row's own old consumption (when the old row
references the same batch), update the row, recompute the sale total and
return the updated row. -/
def update_sale_item (db : DB) (id product_id unit_id : Int)
    (per_price amount : ℚ) (purchase_item_id : Option Int)
    (sale_type discount_type : Option String) (discount_value : ℚ) :
    Except String SaleItemRow × DB :=
  let validation : Except String Unit :=
    match purchase_item_id with
    | some pid =>
      let current_row := db.sale_items.find? (fun si => si.id == id)
      let add_back :=
        match current_row with
        | some cur =>
          if cur.purchase_item_id == some pid then
            amount_to_base db cur.amount cur.unit_id
          else 0
        | none => 0
      match get_batch_remaining_base db pid with
      | .error e => .error e
      | .ok remaining_base =>
        let sale_amount_base := amount_to_base db amount unit_id
        if sale_amount_base > remaining_base + add_back + stockEps then
          .error insufficientStockMsg
        else .ok ()
    | none => .ok ()
  match validation with
  | .error e => (.error e, db)
  | .ok _ =>
    let line_subtotal := per_price * amount
    let disc := compute_discount_amount line_subtotal discount_type discount_value
    let total := round2 (line_subtotal - disc)
    let db1 : DB :=
      { db with
        sale_items := db.sale_items.map (fun si =>
          if si.id == id then
            { si with
              product_id := product_id, unit_id := unit_id
              per_price := per_price, amount := amount, total := total
              purchase_item_id := purchase_item_id, sale_type := sale_type
              discount_type := discount_type, discount_value := discount_value }
          else si) }
    let db2 :=
      match db1.sale_items.find? (fun si => si.id == id) with
      | some row => update_sale_total db1 row.sale_id
      | none => db1
    match db2.sale_items.find? (fun si => si.id == id) with
    | some updated => (.ok updated, db2)
    | none => (.error "Failed to retrieve updated sale item", db2)

/-- `get_account_balance_by_currency_internal` (lib.rs:7909): the stored
per-currency balance for an (account, currency) pair, defaulting to 0. -/
def get_account_balance_by_currency_internal (db : DB)
    (account_id currency_id : Int) : ℚ :=
  match db.account_currency_balances.find?
      (fun b => b.account_id == account_id && b.currency_id == currency_id) with
  | some b => b.balance
  | none => 0

/-- `update_account_currency_balance_internal` (lib.rs:7705): upsert the
per-currency balance row for an (account, currency) pair ("set", not "add"). -/
def update_account_currency_balance_internal (db : DB)
    (account_id currency_id : Int) (balance : ℚ) : DB :=
  if db.account_currency_balances.any
      (fun b => b.account_id == account_id && b.currency_id == currency_id) then
    { db with
      account_currency_balances := db.account_currency_balances.map (fun b =>
        if b.account_id == account_id && b.currency_id == currency_id then
          { b with balance := balance }
        else b) }
  else
    { db with
      account_currency_balances := db.account_currency_balances ++
        [{ account_id := account_id, currency_id := currency_id, balance := balance }] }

/-- `calculate_account_balance_internal` (lib.rs:7359): initial balance (0
when the account is missing) plus the sum of deposit totals minus the sum of
withdrawal totals over the account's transactions, across all currencies. -/
def calculate_account_balance_internal (db : DB) (account_id : Int) : ℚ :=
  let initial_balance :=
    match db.accounts.find? (fun a => a.id == account_id) with
    | some a => a.initial_balance
    | none => 0
  let total_deposits :=
    ((db.account_transactions.filter (fun t =>
      t.account_id == account_id && t.transaction_type == "deposit")).map
      (fun t => t.total)).sum
  let total_withdrawals :=
    ((db.account_transactions.filter (fun t =>
      t.account_id == account_id && t.transaction_type == "withdraw")).map
      (fun t => t.total)).sum
  initial_balance + total_deposits - total_withdrawals

/-- The `UPDATE accounts SET current_balance = ? WHERE id = ?` statement used
after deposits, withdrawals and account edits. -/
def set_account_current_balance (db : DB) (account_id : Int) (balance : ℚ) : DB :=
  { db with
    accounts := db.accounts.map (fun a =>
      if a.id == account_id then { a with current_balance := balance } else a) }

/-- One line of a journal entry as passed to `create_journal_entry`:
(account_id, currency_id, debit_amount, credit_amount, exchange_rate,
description). -/
structure JournalLineInput where
  account_id : Int
  currency_id : Int
  debit_amount : ℚ
  credit_amount : ℚ
  exchange_rate : ℚ
  description : Option String
deriving Repr, DecidableEq

/-- One iteration of the per-line loop of `create_journal_entry[_internal]`
(lib.rs:7771-7800): insert the line with `base_amount = (debit or credit) *
exchange_rate` and apply the signed delta (`+debit` when the debit is
positive, else `-credit`) to the line's (account, currency) stored balance. -/
def journal_line_step (db : DB) (entry_id : Int) (l : JournalLineInput) : DB :=
  let base_amount :=
    if l.debit_amount > 0 then l.debit_amount * l.exchange_rate
    else l.credit_amount * l.exchange_rate
  let line : JournalEntryLineRow :=
    { journal_entry_id := entry_id, account_id := l.account_id
      currency_id := l.currency_id, debit_amount := l.debit_amount
      credit_amount := l.credit_amount, exchange_rate := l.exchange_rate
      base_amount := base_amount, description := l.description }
  let db1 : DB := { db with journal_entry_lines := db.journal_entry_lines ++ [line] }
  let current_balance :=
    get_account_balance_by_currency_internal db1 l.account_id l.currency_id
  let new_balance :=
    if l.debit_amount > 0 then current_balance + l.debit_amount
    else current_balance - l.credit_amount
  update_account_currency_balance_internal db1 l.account_id l.currency_id new_balance

/-- The per-line loop of `create_journal_entry[_internal]`
(lib.rs:7771-7800), iterating `journal_line_step`. -/
def apply_journal_lines (db : DB) (entry_id : Int) :
    List JournalLineInput → DB
  | [] => db
  | l :: rest => apply_journal_lines (journal_line_step db entry_id l) entry_id rest

/-- The generated entry number: `MAX(CAST(SUBSTR(entry_number, 2) AS
INTEGER))` over existing entries (0 when there are none) plus 1. -/
def next_entry_number (db : DB) : Int :=
  ((db.journal_entries.map (fun e => e.entry_number)).foldl max 0) + 1

/-- `create_journal_entry_internal` (lib.rs:7728): generate the entry number,
insert the entry, read its id back by entry number, then insert every line
and update the corresponding per-currency balances.  No debit/credit balance
validation is performed. -/
def create_journal_entry_internal (db : DB) (entry_date : String)
    (description reference_type : Option String) (reference_id : Option Int)
    (lines : List JournalLineInput) : Except String Int × DB :=
  let entry_number := next_entry_number db
  let entry : JournalEntryRow :=
    { id := db.next_journal_entry_id, entry_number := entry_number
      entry_date := entry_date, description := description
      reference_type := reference_type, reference_id := reference_id }
  let db1 : DB :=
    { db with
      journal_entries := db.journal_entries ++ [entry]
      next_journal_entry_id := db.next_journal_entry_id + 1 }
  match db1.journal_entries.find? (fun e => e.entry_number == entry_number) with
  | none => (.error "Failed to retrieve entry ID", db1)
  | some found =>
    let db2 := apply_journal_lines db1 found.id lines
    (.ok found.id, db2)

/-- `create_journal_entry` (lib.rs:7807).  Its body repeats the statements of
`create_journal_entry_internal` verbatim and then reads the created entry
back, so it is modelled as the internal helper followed by that lookup. -/
def create_journal_entry (db : DB) (entry_date : String)
    (description reference_type : Option String) (reference_id : Option Int)
    (lines : List JournalLineInput) : Except String JournalEntryRow × DB :=
  match create_journal_entry_internal db entry_date description reference_type
      reference_id lines with
  | (.error e, db1) => (.error e, db1)
  | (.ok entry_id, db1) =>
    match db1.journal_entries.find? (fun e => e.id == entry_id) with
    | some entry => (.ok entry, db1)
    | none => (.error "Failed to retrieve created journal entry", db1)

/-- The journal-posting block of `deposit_account` (lib.rs:7470-7482): when
an Asset account named like Cash/Bank exists, post an entry debiting the
deposited account and crediting that Cash/Bank account with `total`; a
failure of the posting is discarded (`let _ = ...`). -/
def post_deposit_journal (db : DB) (account_id cur_id : Int)
    (total rate : ℚ) (transaction_date : String) (notes : Option String) : DB :=
  match db.accounts.find? (fun a =>
      a.account_type == "Asset" &&
        (likeContains a.name "Cash" || likeContains a.name "Bank")) with
  | some cash =>
    (create_journal_entry_internal db transaction_date notes
      (some "account_deposit") none
      [{ account_id := account_id, currency_id := cur_id
         debit_amount := total, credit_amount := 0
         exchange_rate := rate, description := notes },
       { account_id := cash.id, currency_id := cur_id
         debit_amount := 0, credit_amount := total
         exchange_rate := rate, description := notes }]).2
  | none => db

/-- The journal-posting block of `withdraw_account` (lib.rs:7585-7597): when
an Expense account exists, post an entry debiting it and crediting the
withdrawn account with `total`. -/
def post_withdraw_journal (db : DB) (account_id cur_id : Int)
    (total rate : ℚ) (transaction_date : String) (notes : Option String) : DB :=
  match db.accounts.find? (fun a => a.account_type == "Expense") with
  | some expense =>
    (create_journal_entry_internal db transaction_date notes
      (some "account_withdraw") none
      [{ account_id := expense.id, currency_id := cur_id
         debit_amount := total, credit_amount := 0
         exchange_rate := rate, description := notes },
       { account_id := account_id, currency_id := cur_id
         debit_amount := 0, credit_amount := total
         exchange_rate := rate, description := notes }]).2
  | none => db

/-- `deposit_account` (lib.rs:7405): resolve the final amount (`is_full`
deposits the recomputed total balance, rejecting a non-positive one; otherwise
a non-positive amount is rejected), insert the transaction, add the amount to
the (account, currency) stored balance, refresh the account's
`current_balance`, and post the deposit journal entry. -/
def deposit_account (db : DB) (account_id : Int) (amount : ℚ)
    (currency : String) (rate : ℚ) (transaction_date : String)
    (is_full : Bool) (notes : Option String) :
    Except String AccountTransactionRow × DB :=
  let final_amount_res : Except String ℚ :=
    if is_full then
      let current_balance := calculate_account_balance_internal db account_id
      if current_balance ≤ 0 then .error "Account has no balance to deposit"
      else .ok current_balance
    else
      if amount ≤ 0 then .error "Deposit amount must be greater than 0"
      else .ok amount
  match final_amount_res with
  | .error e => (.error e, db)
  | .ok final_amount =>
    let total := final_amount * rate
    match db.currencies.find? (fun c => c.name == currency) with
    | none => (.error "Currency not found", db)
    | some cur =>
      let tx : AccountTransactionRow :=
        { id := db.next_transaction_id, account_id := account_id
          transaction_type := "deposit", amount := final_amount
          currency := currency, rate := rate, total := total
          transaction_date := transaction_date, is_full := is_full
          notes := notes }
      let db1 : DB :=
        { db with
          account_transactions := db.account_transactions ++ [tx]
          next_transaction_id := db.next_transaction_id + 1 }
      let current_currency_balance :=
        get_account_balance_by_currency_internal db1 account_id cur.id
      let db2 := update_account_currency_balance_internal db1 account_id cur.id
        (current_currency_balance + final_amount)
      let new_balance := calculate_account_balance_internal db2 account_id
      let db3 := set_account_current_balance db2 account_id new_balance
      let db4 := post_deposit_journal db3 account_id cur.id total rate
        transaction_date notes
      match maxByKey (fun t => t.id)
          (db4.account_transactions.filter (fun t =>
            t.account_id == account_id && t.transaction_type == "deposit")) with
      | some created => (.ok created, db4)
      | none => (.error "Failed to retrieve created transaction", db4)

/-- `withdraw_account` (lib.rs:7514): like `deposit_account` but recomputing
the total balance first; `is_full` withdraws exactly that balance (rejecting
a non-positive one), otherwise a non-positive amount is rejected and an
`amount * rate` exceeding the recomputed balance is rejected as insufficient.
The posted journal entry debits the first Expense account and credits the
withdrawn account. -/
def withdraw_account (db : DB) (account_id : Int) (amount : ℚ)
    (currency : String) (rate : ℚ) (transaction_date : String)
    (is_full : Bool) (notes : Option String) :
    Except String AccountTransactionRow × DB :=
  let current_balance := calculate_account_balance_internal db account_id
  let final_amount_res : Except String ℚ :=
    if is_full then
      if current_balance ≤ 0 then .error "Account has no balance to withdraw"
      else .ok current_balance
    else
      if amount ≤ 0 then .error "Withdrawal amount must be greater than 0"
      else if amount * rate > current_balance then
        .error "Insufficient balance for withdrawal"
      else .ok amount
  match final_amount_res with
  | .error e => (.error e, db)
  | .ok final_amount =>
    let total := final_amount * rate
    match db.currencies.find? (fun c => c.name == currency) with
    | none => (.error "Currency not found", db)
    | some cur =>
      let tx : AccountTransactionRow :=
        { id := db.next_transaction_id, account_id := account_id
          transaction_type := "withdraw", amount := final_amount
          currency := currency, rate := rate, total := total
          transaction_date := transaction_date, is_full := is_full
          notes := notes }
      let db1 : DB :=
        { db with
          account_transactions := db.account_transactions ++ [tx]
          next_transaction_id := db.next_transaction_id + 1 }
      let current_currency_balance :=
        get_account_balance_by_currency_internal db1 account_id cur.id
      let db2 := update_account_currency_balance_internal db1 account_id cur.id
        (current_currency_balance - final_amount)
      let new_balance := calculate_account_balance_internal db2 account_id
      let db3 := set_account_current_balance db2 account_id new_balance
      let db4 := post_withdraw_journal db3 account_id cur.id total rate
        transaction_date notes
      match maxByKey (fun t => t.id)
          (db4.account_transactions.filter (fun t =>
            t.account_id == account_id && t.transaction_type == "withdraw")) with
      | some created => (.ok created, db4)
      | none => (.error "Failed to retrieve created transaction", db4)

/-- Result of `reconcile_account_balance`. -/
structure ReconcileResult where
  account_id : Int
  currency_id : Int
  account_balance : ℚ
  journal_debits : ℚ
  journal_credits : ℚ
  journal_balance : ℚ
  difference : ℚ
  is_balanced : Bool
deriving Repr, DecidableEq

/-- `reconcile_account_balance` (lib.rs:8262): compare the stored
per-currency balance against `SUM(debit_amount) - SUM(credit_amount)` over
the pair's journal entry lines; balanced when the absolute difference is
below 0.01. -/
def reconcile_account_balance (db : DB) (account_id currency_id : Int) :
    ReconcileResult :=
  let account_balance :=
    get_account_balance_by_currency_internal db account_id currency_id
  let journal_debits :=
    ((db.journal_entry_lines.filter (fun l =>
      l.account_id == account_id && l.currency_id == currency_id)).map
      (fun l => l.debit_amount)).sum
  let journal_credits :=
    ((db.journal_entry_lines.filter (fun l =>
      l.account_id == account_id && l.currency_id == currency_id)).map
      (fun l => l.credit_amount)).sum
  let journal_balance := journal_debits - journal_credits
  let difference := account_balance - journal_balance
  { account_id := account_id, currency_id := currency_id
    account_balance := account_balance, journal_debits := journal_debits
    journal_credits := journal_credits, journal_balance := journal_balance
    difference := difference, is_balanced := |difference| < 1/100 }

/-- One element of the `items` argument of `create_sale`: (product_id,
unit_id, per_price, amount, purchase_item_id, sale_type, discount_type,
discount_value). -/
structure SaleItemInput where
  product_id : Int
  unit_id : Int
  per_price : ℚ
  amount : ℚ
  purchase_item_id : Option Int
  sale_type : Option String
  discount_type : Option String
  discount_value : ℚ
deriving Repr, DecidableEq

/-- One element of the `service_items` argument of `create_sale`:
(service_id, name, price, quantity, discount_type, discount_value). -/
structure ServiceItemInput where
  service_id : Int
  name : String
  price : ℚ
  quantity : ℚ
  discount_type : Option String
  discount_value : ℚ
deriving Repr, DecidableEq

/-- Lookup in the model of the `batch_used_base` hash map. -/
def usedLookup (used : List (Int × ℚ)) (pid : Int) : ℚ :=
  match used.find? (fun e => e.1 == pid) with
  | some e => e.2
  | none => 0

/-- Insert/overwrite in the model of the `batch_used_base` hash map. -/
def usedInsert (used : List (Int × ℚ)) (pid : Int) (v : ℚ) : List (Int × ℚ) :=
  if used.any (fun e => e.1 == pid) then
    used.map (fun e => if e.1 == pid then (e.1, v) else e)
  else used ++ [(pid, v)]

/-- The batch-stock validation loop of `create_sale` (lib.rs:3460-3472):
walk the items accumulating per-batch base usage in `batch_used_base` and
fail as soon as the accumulated usage of an item's batch would exceed the
batch's remaining base quantity plus `1e-9`. -/
def validate_sale_items (db : DB) :
    List SaleItemInput → List (Int × ℚ) → Except String Unit
  | [], _ => .ok ()
  | it :: rest, used =>
    match it.purchase_item_id with
    | none => validate_sale_items db rest used
    | some pid =>
      match get_batch_remaining_base db pid with
      | .error e => .error e
      | .ok remaining_base =>
        let used_so_far := usedLookup used pid
        let this_base := amount_to_base db it.amount it.unit_id
        if used_so_far + this_base > remaining_base + stockEps then
          .error insufficientStockMsg
        else
          validate_sale_items db rest (usedInsert used pid (used_so_far + this_base))

/-- The sale-item insertion loop of `create_sale` (lib.rs:3475-3491): insert
each item with its precomputed line total (falling back to
`per_price * amount` when the index is out of range, as the source does). -/
def insert_sale_items (sale_id : Int) (line_totals : List ℚ) :
    DB → Nat → List SaleItemInput → DB
  | db, _, [] => db
  | db, idx, it :: rest =>
    let total := (line_totals.getD idx (it.per_price * it.amount))
    let row : SaleItemRow :=
      { id := db.next_sale_item_id, sale_id := sale_id
        product_id := it.product_id, unit_id := it.unit_id
        per_price := it.per_price, amount := it.amount, total := total
        purchase_item_id := it.purchase_item_id, sale_type := it.sale_type
        discount_type := it.discount_type, discount_value := it.discount_value }
    insert_sale_items sale_id line_totals
      { db with
        sale_items := db.sale_items ++ [row]
        next_sale_item_id := db.next_sale_item_id + 1 }
      (idx + 1) rest

/-- The service-item insertion loop of `create_sale` (lib.rs:3494 ff.). -/
def insert_sale_service_items (sale_id : Int) (line_totals : List ℚ) :
    DB → Nat → List ServiceItemInput → DB
  | db, _, [] => db
  | db, idx, it :: rest =>
    let total := (line_totals.getD idx (it.price * it.quantity))
    let row : SaleServiceItemRow :=
      { sale_id := sale_id, service_id := it.service_id, name := it.name
        price := it.price, quantity := it.quantity, total := total
        discount_type := it.discount_type, discount_value := it.discount_value }
    insert_sale_service_items sale_id line_totals
      { db with sale_service_items := db.sale_service_items ++ [row] }
      (idx + 1) rest

/-- The journal-posting block of `create_sale` (lib.rs:3424-3442): when an
Asset account named like Receivable and a Revenue account both exist, post an
entry debiting the former and crediting the latter with the sale's base
amount; a failure of the posting is discarded. -/
def post_sale_journal (db : DB) (date : String) (notes : Option String)
    (sale_id sale_currency_id : Int) (base_amount exchange_rate : ℚ) : DB :=
  match db.accounts.find? (fun a =>
      a.account_type == "Asset" && likeContains a.name "Receivable"),
    db.accounts.find? (fun a => a.account_type == "Revenue") with
  | some ar, some rev =>
    (create_journal_entry_internal db date notes (some "sale") (some sale_id)
      [{ account_id := ar.id, currency_id := sale_currency_id
         debit_amount := base_amount, credit_amount := 0
         exchange_rate := exchange_rate, description := some "Sale" },
       { account_id := rev.id, currency_id := sale_currency_id
         debit_amount := 0, credit_amount := base_amount
         exchange_rate := exchange_rate, description := some "Sale" }]).2
  | _, _ => db

/-- The base-currency resolution used by `create_sale` (lib.rs:3413-3422):
first currency marked base, else the first currency, else id 1. -/
def base_currency_id_of (db : DB) : Int :=
  match db.currencies.find? (fun c => c.base) with
  | some c => c.id
  | none =>
    match db.currencies.head? with
    | some c => c.id
    | none => 1

/-- `create_sale` (lib.rs:3342): compute line totals and the order total,
insert the sale row, read its id back, post the sale's journal entry when
Accounts-Receivable and Revenue accounts exist, insert the initial payment
when `paid_amount > 0`, then validate batch stock for the items and finally
insert the sale items and service items.  Statements already executed before
a validation failure are not rolled back. -/
def create_sale (db : DB) (customer_id : Int) (date : String)
    (notes : Option String) (currency_id : Option Int)
    (exchange_rate paid_amount : ℚ) (additional_costs : List (String × ℚ))
    (items : List SaleItemInput) (service_items : List ServiceItemInput)
    (order_discount_type : Option String) (order_discount_value : ℚ) :
    Except String SaleRow × DB :=
  if items.isEmpty && service_items.isEmpty then
    (.error "Sale must have at least one product item or service item", db)
  else
    let items_line_totals := items.map (fun it =>
      let line_subtotal := it.per_price * it.amount
      round2 (line_subtotal -
        compute_discount_amount line_subtotal it.discount_type it.discount_value))
    let service_line_totals := service_items.map (fun it =>
      let line_subtotal := it.price * it.quantity
      round2 (line_subtotal -
        compute_discount_amount line_subtotal it.discount_type it.discount_value))
    let subtotal := round2 (items_line_totals.sum + service_line_totals.sum)
    let order_discount_amount :=
      compute_discount_amount subtotal order_discount_type order_discount_value
    let additional_costs_total := (additional_costs.map (fun c => c.2)).sum
    let total_amount := round2 (subtotal - order_discount_amount + additional_costs_total)
    let base_amount := total_amount * exchange_rate
    let sale : SaleRow :=
      { id := db.next_sale_id, customer_id := customer_id, date := date
        notes := notes, currency_id := currency_id
        exchange_rate := exchange_rate, total_amount := total_amount
        base_amount := base_amount, paid_amount := paid_amount
        additional_cost := additional_costs_total
        order_discount_type := order_discount_type
        order_discount_value := order_discount_value
        order_discount_amount := order_discount_amount }
    let db1 : DB :=
      { db with sales := db.sales ++ [sale], next_sale_id := db.next_sale_id + 1 }
    match maxByKey (fun s => s.id)
        (db1.sales.filter (fun s => s.customer_id == customer_id && s.date == date)) with
    | none => (.error "Failed to retrieve sale ID", db1)
    | some fetched =>
      let sale_id := fetched.id
      let base_currency_id := base_currency_id_of db1
      let db2 := post_sale_journal db1 date notes sale_id
        (currency_id.getD base_currency_id) base_amount exchange_rate
      let db3 :=
        if paid_amount > 0 then
          let payment_currency_id := currency_id.getD base_currency_id
          { db2 with
            sale_payments := db2.sale_payments ++
              [{ sale_id := sale_id, currency_id := payment_currency_id
                 exchange_rate := exchange_rate, amount := paid_amount
                 base_amount := paid_amount * exchange_rate, date := date }] }
        else db2
      match validate_sale_items db3 items [] with
      | .error e => (.error e, db3)
      | .ok _ =>
        let db4 := insert_sale_items sale_id items_line_totals db3 0 items
        let db5 := insert_sale_service_items sale_id service_line_totals db4 0 service_items
        let db6 : DB :=
          { db5 with
            sale_additional_costs := db5.sale_additional_costs ++
              additional_costs.map (fun c =>
                { sale_id := sale_id, name := c.1, amount := c.2 }) }
        match db6.sales.find? (fun s => s.id == sale_id) with
        | some created => (.ok created, db6)
        | none => (.error "Failed to retrieve created sale", db6)

/-- Written from the spec's words for the refinement claim about
`remaining_base` (spec section 3): the purchased amount converted to base
units minus the sum over all sale lines referencing the batch of their
amounts converted to base units, clamped at zero and rounded to 6 decimal
places. -/
def spec_remaining_base (db : DB) (b : PurchaseItemRow) : ℚ :=
  round6 (max
    (b.amount * get_unit_ratio db b.unit_id -
      ((db.sale_items.filter (fun si => si.purchase_item_id == some b.id)).map
        (fun si => si.amount * get_unit_ratio db si.unit_id)).sum)
    0)

/-- Written from the spec's words for the ledger-balance claim: the
`initial_balance` of the account row (0 when absent). -/
def spec_initial_balance (db : DB) (account_id : Int) : ℚ :=
  match db.accounts.find? (fun a => a.id == account_id) with
  | some a => a.initial_balance
  | none => 0

/-- Written from the spec's words: the sum of the `total` field over the
account's transactions of the given type, across all currencies. -/
def spec_transaction_total_sum (db : DB) (account_id : Int) (ty : String) : ℚ :=
  ((db.account_transactions.filter (fun t =>
    t.account_id == account_id && t.transaction_type == ty)).map
    (fun t => t.total)).sum

/-- One deposit or withdrawal request in a sequence of account operations. -/
inductive AccountOp where
  | dep (amount : ℚ) (currency : String) (rate : ℚ) (date : String)
      (is_full : Bool) (notes : Option String)
  | wd (amount : ℚ) (currency : String) (rate : ℚ) (date : String)
      (is_full : Bool) (notes : Option String)
deriving Repr, DecidableEq

/-- Run one account operation against the store, keeping the resulting state
whether or not the call succeeded. -/
def applyAccountOp (db : DB) (account_id : Int) : AccountOp → DB
  | .dep a c r d f n => (deposit_account db account_id a c r d f n).2
  | .wd a c r d f n => (withdraw_account db account_id a c r d f n).2

/-- Run a sequence of deposits/withdrawals against the store. -/
def applyAccountOps (db : DB) (account_id : Int) : List AccountOp → DB
  | [] => db
  | op :: rest => applyAccountOps (applyAccountOp db account_id op) account_id rest

/-- The empty database (all auto-increment counters start at 1). -/
def emptyDB : DB :=
  { units := [], purchase_items := [], sale_items := [], sales := []
    sale_payments := [], sale_service_items := [], sale_additional_costs := []
    currencies := [], accounts := [], account_transactions := []
    account_currency_balances := [], journal_entries := []
    journal_entry_lines := [], next_sale_id := 1, next_sale_item_id := 1
    next_transaction_id := 1, next_journal_entry_id := 1 }

/-- A store with one unit of ratio 1 and one batch of 10 base units. -/
def dbStock : DB :=
  { emptyDB with
    units := [{ id := 1, ratio := some 1 }]
    purchase_items := [{ id := 10, product_id := 1, amount := 10, unit_id := 1 }] }

/-- `dbStock` with one existing sale and one sale item consuming 4 base units
of batch 10 (so 6 base units remain). -/
def dbStockSold : DB :=
  { dbStock with
    sales := [{ id := 1, customer_id := 1, date := "2024-01-01", notes := none
                currency_id := none, exchange_rate := 1, total_amount := 20
                base_amount := 20, paid_amount := 0, additional_cost := 0
                order_discount_type := none, order_discount_value := 0
                order_discount_amount := 0 }]
    sale_items := [{ id := 1, sale_id := 1, product_id := 1, unit_id := 1
                     per_price := 5, amount := 4, total := 20
                     purchase_item_id := some 10, sale_type := none
                     discount_type := none, discount_value := 0 }]
    next_sale_id := 2
    next_sale_item_id := 2 }

/-- A ledger store: one base currency, an account with initial balance 100,
one Cash asset account and one Expense account. -/
def dbLedger : DB :=
  { emptyDB with
    currencies := [{ id := 1, name := "USD", base := true }]
    accounts :=
      [{ id := 5, name := "Wallet", account_type := "Equity"
         initial_balance := 100, current_balance := 100 },
       { id := 7, name := "Main Cash", account_type := "Asset"
         initial_balance := 0, current_balance := 0 },
       { id := 8, name := "Misc", account_type := "Expense"
         initial_balance := 0, current_balance := 0 }] }

/-- A store whose (account 1, currency 1) stored balance has drifted to 100
with no journal lines at all. -/
def dbDrift : DB :=
  { emptyDB with
    account_currency_balances := [{ account_id := 1, currency_id := 1, balance := 100 }] }

/-- A sale item of 50 units of unit 1 against batch 10. -/
def itemBig : SaleItemInput :=
  { product_id := 1, unit_id := 1, per_price := 0, amount := 50
    purchase_item_id := some 10, sale_type := none, discount_type := none
    discount_value := 0 }

/-- A sale item with a negative amount against batch 10. -/
def itemNeg : SaleItemInput :=
  { product_id := 1, unit_id := 1, per_price := 0, amount := -100
    purchase_item_id := some 10, sale_type := none, discount_type := none
    discount_value := 0 }

theorem rustRound_mono {x y : ℚ} (h : x ≤ y) : rustRound x ≤ rustRound y := by
  unfold rustRound
  by_cases hx : 0 ≤ x
  · have hy : 0 ≤ y := le_trans hx h
    simp only [if_pos hx, if_pos hy]
    exact Int.floor_le_floor (by linarith)
  · by_cases hy : 0 ≤ y
    · simp only [if_neg hx, if_pos hy]
      push_neg at hx
      have h1 : (0:ℤ) ≤ ⌊-x + 1/2⌋ := Int.floor_nonneg.mpr (by linarith)
      have h2 : (0:ℤ) ≤ ⌊y + 1/2⌋ := Int.floor_nonneg.mpr (by linarith)
      omega
    · simp only [if_neg hx, if_neg hy]
      have h3 : ⌊-y + 1/2⌋ ≤ ⌊-x + 1/2⌋ := Int.floor_le_floor (by linarith)
      omega

theorem rustRound_zero : rustRound 0 = 0 := by
  unfold rustRound
  norm_num

theorem abs_rustRound_sub_le (x : ℚ) : |(rustRound x : ℚ) - x| ≤ 1/2 := by
  unfold rustRound
  by_cases hx : 0 ≤ x
  · simp only [if_pos hx]
    have h1 : (⌊x + 1/2⌋ : ℚ) ≤ x + 1/2 := Int.floor_le _
    have h2 : x + 1/2 - 1 < (⌊x + 1/2⌋ : ℚ) := Int.sub_one_lt_floor _
    rw [abs_le]
    constructor <;> linarith
  · simp only [if_neg hx]
    have h1 : (⌊-x + 1/2⌋ : ℚ) ≤ -x + 1/2 := Int.floor_le _
    have h2 : -x + 1/2 - 1 < (⌊-x + 1/2⌋ : ℚ) := Int.sub_one_lt_floor _
    rw [abs_le]
    push_cast
    constructor <;> linarith

theorem round2_mono {x y : ℚ} (h : x ≤ y) : round2 x ≤ round2 y := by
  unfold round2
  have h1 : rustRound (x * 100) ≤ rustRound (y * 100) :=
    rustRound_mono (by linarith)
  have h2 : ((rustRound (x * 100) : ℤ) : ℚ) ≤ ((rustRound (y * 100) : ℤ) : ℚ) :=
    Int.cast_le.mpr h1
  exact div_le_div_of_nonneg_right h2 (by norm_num) |>.trans_eq rfl

theorem round2_nonneg {x : ℚ} (h : 0 ≤ x) : 0 ≤ round2 x := by
  have h0 := round2_mono h
  simpa [round2, rustRound_zero] using h0

theorem abs_round6_sub_le (x : ℚ) : |round6 x - x| ≤ 1/2000000 := by
  unfold round6
  have h := abs_rustRound_sub_le (x * 1000000)
  have heq : (rustRound (x * 1000000) : ℚ) / 1000000 - x
      = ((rustRound (x * 1000000) : ℚ) - x * 1000000) / 1000000 := by ring
  rw [heq, abs_div, abs_of_pos (by norm_num : (0:ℚ) < 1000000)]
  rw [div_le_iff₀ (by norm_num : (0:ℚ) < 1000000)]
  calc |(rustRound (x * 1000000) : ℚ) - x * 1000000| ≤ 1/2 := h
    _ = 1/2000000 * 1000000 := by norm_num

theorem maxByKey_some_of_aux {α : Type} (key : α → Int) (l : List α) :
    ∀ b : α,
      ∃ m, List.foldl
        (fun acc r =>
          match acc with
          | none => some r
          | some b => if key b ≤ key r then some r else some b)
        (some b) l = some m := by
  induction l with
  | nil => intro b; exact ⟨b, rfl⟩
  | cons x xs ih =>
    intro b
    simp only [List.foldl_cons]
    by_cases hk : key b ≤ key x
    · simpa [hk] using ih x
    · simpa [hk] using ih b

theorem maxByKey_isSome {α : Type} (key : α → Int) (l : List α) (h : l ≠ []) :
    ∃ m, maxByKey key l = some m := by
  match l with
  | [] => exact absurd rfl h
  | x :: xs =>
    unfold maxByKey
    simpa using maxByKey_some_of_aux key xs x

theorem maxByKey_append_aux {α : Type} (key : α → Int) (m : α) :
    ∀ (l : List α) (acc : Option α),
      (∀ x ∈ l, key x < key m) →
      (acc = none ∨ ∃ b, acc = some b ∧ key b < key m) →
      List.foldl
        (fun acc r =>
          match acc with
          | none => some r
          | some b => if key b ≤ key r then some r else some b)
        acc (l ++ [m]) = some m := by
  intro l
  induction l with
  | nil =>
    intro acc _ hacc
    rcases hacc with rfl | ⟨b, rfl, hb⟩
    · rfl
    · simp [le_of_lt hb]
  | cons x xs ih =>
    intro acc hl hacc
    simp only [List.cons_append, List.foldl_cons]
    have hx : key x < key m := hl x (by simp)
    have hxs : ∀ y ∈ xs, key y < key m := fun y hy => hl y (by simp [hy])
    rcases hacc with rfl | ⟨b, rfl, hb⟩
    · exact ih (some x) hxs (Or.inr ⟨x, rfl, hx⟩)
    · by_cases hk : key b ≤ key x
      · simpa [hk] using ih (some x) hxs (Or.inr ⟨x, rfl, hx⟩)
      · simpa [hk] using ih (some b) hxs (Or.inr ⟨b, rfl, hb⟩)

theorem maxByKey_append_max {α : Type} (key : α → Int) (l : List α) (m : α)
    (hl : ∀ x ∈ l, key x < key m) :
    maxByKey key (l ++ [m]) = some m :=
  maxByKey_append_aux key m l none hl (Or.inl rfl)

theorem find?_map_pred_pres {α : Type} (l : List α) (p : α → Bool) (g : α → α)
    (hg : ∀ x, p (g x) = p x) :
    (l.map g).find? p = (l.find? p).map g := by
  rw [List.find?_map g l]
  have hpg : p ∘ g = p := funext hg
  rw [hpg]

theorem acb_get_congr (db db' : DB)
    (h : db'.account_currency_balances = db.account_currency_balances)
    (a c : Int) :
    get_account_balance_by_currency_internal db' a c
      = get_account_balance_by_currency_internal db a c := by
  unfold get_account_balance_by_currency_internal
  rw [h]

theorem acb_get_update_same (db : DB) (a c : Int) (v : ℚ) :
    get_account_balance_by_currency_internal
      (update_account_currency_balance_internal db a c v) a c = v := by
  unfold get_account_balance_by_currency_internal
    update_account_currency_balance_internal
  by_cases hany :
      (db.account_currency_balances.any
        (fun b => b.account_id == a && b.currency_id == c)) = true
  · simp only [if_pos hany]
    rw [find?_map_pred_pres db.account_currency_balances
      (fun b => b.account_id == a && b.currency_id == c)
      (fun b =>
        if b.account_id == a && b.currency_id == c then { b with balance := v }
        else b)
      (fun b => by
        by_cases hb : (b.account_id == a && b.currency_id == c) = true
        · simp [hb]
        · simp [hb])]
    obtain ⟨b0, hb0mem, hb0p⟩ := List.any_eq_true.mp hany
    have hsome : (db.account_currency_balances.find?
        (fun b => b.account_id == a && b.currency_id == c)).isSome :=
      List.find?_isSome.mpr ⟨b0, hb0mem, hb0p⟩
    obtain ⟨b1, hb1⟩ := Option.isSome_iff_exists.mp hsome
    rw [hb1]
    have hp1 := List.find?_some hb1
    simp only [Bool.and_eq_true, beq_iff_eq] at hp1
    simp [hp1.1, hp1.2]
  · simp only [if_neg hany]
    have hnone : db.account_currency_balances.find?
        (fun b => b.account_id == a && b.currency_id == c) = none :=
      List.find?_eq_none.mpr (fun x hx hpx =>
        hany (List.any_eq_true.mpr ⟨x, hx, hpx⟩))
    rw [List.find?_append, hnone]
    simp

theorem acb_get_update_ne (db : DB) (a c a' c' : Int) (v : ℚ)
    (h : ¬ (a = a' ∧ c = c')) :
    get_account_balance_by_currency_internal
      (update_account_currency_balance_internal db a' c' v) a c
    = get_account_balance_by_currency_internal db a c := by
  unfold get_account_balance_by_currency_internal
    update_account_currency_balance_internal
  by_cases hany :
      (db.account_currency_balances.any
        (fun b => b.account_id == a' && b.currency_id == c')) = true
  · simp only [if_pos hany]
    rw [find?_map_pred_pres db.account_currency_balances
      (fun b => b.account_id == a && b.currency_id == c)
      (fun b =>
        if b.account_id == a' && b.currency_id == c' then { b with balance := v }
        else b)
      (fun b => by
        by_cases hb : (b.account_id == a' && b.currency_id == c') = true
        · simp [hb]
        · simp [hb])]
    cases hf : db.account_currency_balances.find?
        (fun b => b.account_id == a && b.currency_id == c) with
    | none => simp
    | some b1 =>
      have hp1 := List.find?_some hf
      simp only [Bool.and_eq_true, beq_iff_eq] at hp1
      have hnp : ¬ (b1.account_id = a' ∧ b1.currency_id = c') := fun hx =>
        h ⟨hp1.1.symm.trans hx.1, hp1.2.symm.trans hx.2⟩
      simp [hnp]
  · simp only [if_neg hany]
    rw [List.find?_append]
    have hpnew : ((a' == a) && (c' == c)) = false := by
      simp only [Bool.and_eq_false_iff, beq_eq_false_iff_ne, ne_eq]
      by_cases ha : a' = a
      · right
        intro hc
        exact h ⟨ha.symm, hc.symm⟩
      · left
        exact ha
    simp [List.find?, hpnew]

theorem update_acb_pres (db : DB) (a c : Int) (v : ℚ) :
    (update_account_currency_balance_internal db a c v).units = db.units ∧
    (update_account_currency_balance_internal db a c v).purchase_items = db.purchase_items ∧
    (update_account_currency_balance_internal db a c v).sale_items = db.sale_items ∧
    (update_account_currency_balance_internal db a c v).sales = db.sales ∧
    (update_account_currency_balance_internal db a c v).sale_payments = db.sale_payments ∧
    (update_account_currency_balance_internal db a c v).accounts = db.accounts ∧
    (update_account_currency_balance_internal db a c v).account_transactions = db.account_transactions ∧
    (update_account_currency_balance_internal db a c v).journal_entry_lines = db.journal_entry_lines ∧
    (update_account_currency_balance_internal db a c v).currencies = db.currencies := by
  unfold update_account_currency_balance_internal
  split <;>
    exact ⟨rfl, rfl, rfl, rfl, rfl, rfl, rfl, rfl, rfl⟩

theorem journal_line_step_pres (db : DB) (eid : Int) (l : JournalLineInput) :
    (journal_line_step db eid l).units = db.units ∧
    (journal_line_step db eid l).purchase_items = db.purchase_items ∧
    (journal_line_step db eid l).sale_items = db.sale_items ∧
    (journal_line_step db eid l).sales = db.sales ∧
    (journal_line_step db eid l).sale_payments = db.sale_payments ∧
    (journal_line_step db eid l).accounts = db.accounts ∧
    (journal_line_step db eid l).account_transactions = db.account_transactions ∧
    (journal_line_step db eid l).currencies = db.currencies := by
  simp only [journal_line_step]
  exact ⟨(update_acb_pres _ _ _ _).1, (update_acb_pres _ _ _ _).2.1,
    (update_acb_pres _ _ _ _).2.2.1, (update_acb_pres _ _ _ _).2.2.2.1,
    (update_acb_pres _ _ _ _).2.2.2.2.1, (update_acb_pres _ _ _ _).2.2.2.2.2.1,
    (update_acb_pres _ _ _ _).2.2.2.2.2.2.1,
    (update_acb_pres _ _ _ _).2.2.2.2.2.2.2.2⟩

theorem apply_journal_lines_pres (eid : Int) (lines : List JournalLineInput) :
    ∀ db : DB,
    (apply_journal_lines db eid lines).units = db.units ∧
    (apply_journal_lines db eid lines).purchase_items = db.purchase_items ∧
    (apply_journal_lines db eid lines).sale_items = db.sale_items ∧
    (apply_journal_lines db eid lines).sales = db.sales ∧
    (apply_journal_lines db eid lines).sale_payments = db.sale_payments ∧
    (apply_journal_lines db eid lines).accounts = db.accounts ∧
    (apply_journal_lines db eid lines).account_transactions = db.account_transactions ∧
    (apply_journal_lines db eid lines).currencies = db.currencies := by
  induction lines with
  | nil =>
    intro db
    exact ⟨rfl, rfl, rfl, rfl, rfl, rfl, rfl, rfl⟩
  | cons l rest ih =>
    intro db
    obtain ⟨i1, i2, i3, i4, i5, i6, i7, i8⟩ := ih (journal_line_step db eid l)
    obtain ⟨s1, s2, s3, s4, s5, s6, s7, s8⟩ := journal_line_step_pres db eid l
    exact ⟨i1.trans s1, i2.trans s2, i3.trans s3, i4.trans s4,
      i5.trans s5, i6.trans s6, i7.trans s7, i8.trans s8⟩

theorem create_journal_entry_internal_pres (db : DB) (entry_date : String)
    (description reference_type : Option String) (reference_id : Option Int)
    (lines : List JournalLineInput) :
    ((create_journal_entry_internal db entry_date description reference_type
        reference_id lines).2).units = db.units ∧
    ((create_journal_entry_internal db entry_date description reference_type
        reference_id lines).2).purchase_items = db.purchase_items ∧
    ((create_journal_entry_internal db entry_date description reference_type
        reference_id lines).2).sale_items = db.sale_items ∧
    ((create_journal_entry_internal db entry_date description reference_type
        reference_id lines).2).sales = db.sales ∧
    ((create_journal_entry_internal db entry_date description reference_type
        reference_id lines).2).sale_payments = db.sale_payments ∧
    ((create_journal_entry_internal db entry_date description reference_type
        reference_id lines).2).accounts = db.accounts ∧
    ((create_journal_entry_internal db entry_date description reference_type
        reference_id lines).2).account_transactions = db.account_transactions ∧
    ((create_journal_entry_internal db entry_date description reference_type
        reference_id lines).2).currencies = db.currencies := by
  simp only [create_journal_entry_internal]
  split
  · exact ⟨rfl, rfl, rfl, rfl, rfl, rfl, rfl, rfl⟩
  · exact apply_journal_lines_pres _ _ _

theorem post_deposit_journal_pres (db : DB) (account_id cur_id : Int)
    (total rate : ℚ) (transaction_date : String) (notes : Option String) :
    (post_deposit_journal db account_id cur_id total rate transaction_date notes).units = db.units ∧
    (post_deposit_journal db account_id cur_id total rate transaction_date notes).purchase_items = db.purchase_items ∧
    (post_deposit_journal db account_id cur_id total rate transaction_date notes).sale_items = db.sale_items ∧
    (post_deposit_journal db account_id cur_id total rate transaction_date notes).sales = db.sales ∧
    (post_deposit_journal db account_id cur_id total rate transaction_date notes).sale_payments = db.sale_payments ∧
    (post_deposit_journal db account_id cur_id total rate transaction_date notes).accounts = db.accounts ∧
    (post_deposit_journal db account_id cur_id total rate transaction_date notes).account_transactions = db.account_transactions ∧
    (post_deposit_journal db account_id cur_id total rate transaction_date notes).currencies = db.currencies := by
  unfold post_deposit_journal
  split
  · exact create_journal_entry_internal_pres _ _ _ _ _ _
  · exact ⟨rfl, rfl, rfl, rfl, rfl, rfl, rfl, rfl⟩

theorem post_withdraw_journal_pres (db : DB) (account_id cur_id : Int)
    (total rate : ℚ) (transaction_date : String) (notes : Option String) :
    (post_withdraw_journal db account_id cur_id total rate transaction_date notes).units = db.units ∧
    (post_withdraw_journal db account_id cur_id total rate transaction_date notes).purchase_items = db.purchase_items ∧
    (post_withdraw_journal db account_id cur_id total rate transaction_date notes).sale_items = db.sale_items ∧
    (post_withdraw_journal db account_id cur_id total rate transaction_date notes).sales = db.sales ∧
    (post_withdraw_journal db account_id cur_id total rate transaction_date notes).sale_payments = db.sale_payments ∧
    (post_withdraw_journal db account_id cur_id total rate transaction_date notes).accounts = db.accounts ∧
    (post_withdraw_journal db account_id cur_id total rate transaction_date notes).account_transactions = db.account_transactions ∧
    (post_withdraw_journal db account_id cur_id total rate transaction_date notes).currencies = db.currencies := by
  unfold post_withdraw_journal
  split
  · exact create_journal_entry_internal_pres _ _ _ _ _ _
  · exact ⟨rfl, rfl, rfl, rfl, rfl, rfl, rfl, rfl⟩

theorem post_sale_journal_pres (db : DB) (date : String) (notes : Option String)
    (sale_id sale_currency_id : Int) (base_amount exchange_rate : ℚ) :
    (post_sale_journal db date notes sale_id sale_currency_id base_amount exchange_rate).units = db.units ∧
    (post_sale_journal db date notes sale_id sale_currency_id base_amount exchange_rate).purchase_items = db.purchase_items ∧
    (post_sale_journal db date notes sale_id sale_currency_id base_amount exchange_rate).sale_items = db.sale_items ∧
    (post_sale_journal db date notes sale_id sale_currency_id base_amount exchange_rate).sales = db.sales ∧
    (post_sale_journal db date notes sale_id sale_currency_id base_amount exchange_rate).sale_payments = db.sale_payments ∧
    (post_sale_journal db date notes sale_id sale_currency_id base_amount exchange_rate).accounts = db.accounts ∧
    (post_sale_journal db date notes sale_id sale_currency_id base_amount exchange_rate).account_transactions = db.account_transactions ∧
    (post_sale_journal db date notes sale_id sale_currency_id base_amount exchange_rate).currencies = db.currencies := by
  unfold post_sale_journal
  split
  · exact create_journal_entry_internal_pres _ _ _ _ _ _
  · exact ⟨rfl, rfl, rfl, rfl, rfl, rfl, rfl, rfl⟩

theorem reconcile_difference_eq (db : DB) (a c : Int) :
    (reconcile_account_balance db a c).difference
      = get_account_balance_by_currency_internal db a c -
        ((((db.journal_entry_lines.filter (fun l =>
            l.account_id == a && l.currency_id == c)).map
            (fun l => l.debit_amount)).sum) -
         (((db.journal_entry_lines.filter (fun l =>
            l.account_id == a && l.currency_id == c)).map
            (fun l => l.credit_amount)).sum)) := rfl

theorem reconcile_is_balanced_iff (db : DB) (a c : Int) :
    ((reconcile_account_balance db a c).is_balanced = true)
      ↔ |(reconcile_account_balance db a c).difference| < 1/100 := by
  have h : (reconcile_account_balance db a c).is_balanced
      = decide (|(reconcile_account_balance db a c).difference| < 1/100) := rfl
  rw [h, decide_eq_true_iff]

theorem reconcile_congr (db db' : DB) (a c : Int)
    (hacb : db'.account_currency_balances = db.account_currency_balances)
    (hjl : db'.journal_entry_lines = db.journal_entry_lines) :
    reconcile_account_balance db' a c = reconcile_account_balance db a c := by
  unfold reconcile_account_balance get_account_balance_by_currency_internal
  rw [hacb, hjl]

theorem reconcile_diff_step (db : DB) (eid : Int) (l : JournalLineInput)
    (a c : Int) (h0 : 0 ≤ l.debit_amount)
    (h1 : 0 < l.debit_amount → l.credit_amount = 0) :
    (reconcile_account_balance (journal_line_step db eid l) a c).difference
      = (reconcile_account_balance db a c).difference := by
  have hlines : (journal_line_step db eid l).journal_entry_lines
      = db.journal_entry_lines ++
        [{ journal_entry_id := eid, account_id := l.account_id
           currency_id := l.currency_id, debit_amount := l.debit_amount
           credit_amount := l.credit_amount, exchange_rate := l.exchange_rate
           base_amount :=
             if l.debit_amount > 0 then l.debit_amount * l.exchange_rate
             else l.credit_amount * l.exchange_rate
           description := l.description }] := by
    simp only [journal_line_step]
    exact (update_acb_pres _ _ _ _).2.2.2.2.2.2.2.1
  rw [reconcile_difference_eq, reconcile_difference_eq, hlines,
    List.filter_append, List.map_append, List.map_append,
    List.sum_append, List.sum_append]
  by_cases hpair : l.account_id = a ∧ l.currency_id = c
  · obtain ⟨ha, hc⟩ := hpair
    subst ha
    subst hc
    have hget : get_account_balance_by_currency_internal
        (journal_line_step db eid l) l.account_id l.currency_id
        = (if l.debit_amount > 0 then
            get_account_balance_by_currency_internal db l.account_id l.currency_id
              + l.debit_amount
          else
            get_account_balance_by_currency_internal db l.account_id l.currency_id
              - l.credit_amount) := by
      simp only [journal_line_step]
      rw [acb_get_update_same]
      rfl
    rw [hget]
    simp only [List.filter_cons, List.filter_nil, beq_self_eq_true,
      Bool.and_self, if_true, List.map_cons, List.map_nil, List.sum_cons,
      List.sum_nil]
    by_cases hd : l.debit_amount > 0
    · rw [if_pos hd, h1 hd]
      ring
    · rw [if_neg hd]
      have hd0 : l.debit_amount = 0 := le_antisymm (not_lt.mp hd) h0
      rw [hd0]
      ring
  · have hget2 : get_account_balance_by_currency_internal
        (journal_line_step db eid l) a c
        = get_account_balance_by_currency_internal db a c := by
      have hne : ¬ (a = l.account_id ∧ c = l.currency_id) := fun hx =>
        hpair ⟨hx.1.symm, hx.2.symm⟩
      simp only [journal_line_step]
      rw [acb_get_update_ne _ _ _ _ _ _ hne]
      rfl
    rw [hget2]
    have hp : ((l.account_id == a) && (l.currency_id == c)) = false := by
      rcases not_and_or.mp hpair with hna | hnc
      · simp [beq_eq_false_iff_ne.mpr hna]
      · simp [beq_eq_false_iff_ne.mpr hnc]
    simp only [List.filter_cons, List.filter_nil, hp, Bool.false_eq_true,
      if_false, List.map_nil, List.sum_nil]
    ring

theorem reconcile_diff_apply_lines (eid : Int) (lines : List JournalLineInput) :
    ∀ (db : DB) (a c : Int),
    (∀ l ∈ lines, 0 ≤ l.debit_amount ∧ (0 < l.debit_amount → l.credit_amount = 0)) →
    (reconcile_account_balance (apply_journal_lines db eid lines) a c).difference
      = (reconcile_account_balance db a c).difference := by
  induction lines with
  | nil => intro db a c _; rfl
  | cons l rest ih =>
    intro db a c hwf
    have hstep := reconcile_diff_step db eid l a c (hwf l (by simp)).1
      (hwf l (by simp)).2
    have hrest := ih (journal_line_step db eid l) a c
      (fun x hx => hwf x (by simp [hx]))
    calc (reconcile_account_balance
          (apply_journal_lines (journal_line_step db eid l) eid rest) a c).difference
        = (reconcile_account_balance (journal_line_step db eid l) a c).difference :=
          hrest
      _ = (reconcile_account_balance db a c).difference := hstep

theorem reconcile_diff_internal (db : DB) (entry_date : String)
    (description reference_type : Option String) (reference_id : Option Int)
    (lines : List JournalLineInput) (a c : Int)
    (hwf : ∀ l ∈ lines, 0 ≤ l.debit_amount ∧ (0 < l.debit_amount → l.credit_amount = 0)) :
    (reconcile_account_balance
      ((create_journal_entry_internal db entry_date description reference_type
        reference_id lines).2) a c).difference
      = (reconcile_account_balance db a c).difference := by
  simp only [create_journal_entry_internal]
  split
  · exact congrArg ReconcileResult.difference (reconcile_congr db _ a c rfl rfl)
  · dsimp only
    exact (reconcile_diff_apply_lines _ lines _ a c hwf).trans
      (congrArg ReconcileResult.difference (reconcile_congr db _ a c rfl rfl))

theorem reconcile_diff_create_journal_entry (db : DB) (entry_date : String)
    (description reference_type : Option String) (reference_id : Option Int)
    (lines : List JournalLineInput) (a c : Int)
    (hwf : ∀ l ∈ lines, 0 ≤ l.debit_amount ∧ (0 < l.debit_amount → l.credit_amount = 0)) :
    (reconcile_account_balance
      ((create_journal_entry db entry_date description reference_type
        reference_id lines).2) a c).difference
      = (reconcile_account_balance db a c).difference := by
  have hint := reconcile_diff_internal db entry_date description reference_type
    reference_id lines a c hwf
  unfold create_journal_entry
  rcases hres : create_journal_entry_internal db entry_date description
      reference_type reference_id lines with ⟨res, db1⟩
  have hdb1 : (create_journal_entry_internal db entry_date description
      reference_type reference_id lines).2 = db1 := by rw [hres]
  rw [hdb1] at hint
  cases res with
  | error e => simpa using hint
  | ok entry_id =>
    simp only []
    split
    · exact hint
    · exact hint

theorem journal_line_step_get_debit (s : DB) (eid : Int) (l : JournalLineInput)
    (h0 : 0 ≤ l.debit_amount) (hc : l.credit_amount = 0) :
    get_account_balance_by_currency_internal (journal_line_step s eid l)
      l.account_id l.currency_id
    = get_account_balance_by_currency_internal s l.account_id l.currency_id
      + l.debit_amount := by
  simp only [journal_line_step]
  by_cases hd : l.debit_amount > 0
  · rw [acb_get_update_same, if_pos hd]
    rfl
  · have hd0 : l.debit_amount = 0 := le_antisymm (not_lt.mp hd) h0
    rw [acb_get_update_same, if_neg hd, hc, hd0, sub_zero, add_zero]
    rfl

theorem journal_line_step_get_credit (s : DB) (eid : Int) (l : JournalLineInput)
    (hd : l.debit_amount ≤ 0) :
    get_account_balance_by_currency_internal (journal_line_step s eid l)
      l.account_id l.currency_id
    = get_account_balance_by_currency_internal s l.account_id l.currency_id
      - l.credit_amount := by
  simp only [journal_line_step]
  rw [acb_get_update_same, if_neg (not_lt.mpr hd)]
  rfl

theorem journal_line_step_get_other (s : DB) (eid : Int) (l : JournalLineInput)
    (a c : Int) (hne : ¬ (a = l.account_id ∧ c = l.currency_id)) :
    get_account_balance_by_currency_internal (journal_line_step s eid l) a c
      = get_account_balance_by_currency_internal s a c := by
  simp only [journal_line_step]
  rw [acb_get_update_ne _ _ _ _ _ _ hne]
  rfl

theorem find?_append_singleton_isSome {α : Type} (l : List α) (e : α)
    (p : α → Bool) (hp : p e = true) :
    ∃ x, (l ++ [e]).find? p = some x := by
  rw [List.find?_append]
  cases hf : l.find? p with
  | none => exact ⟨e, by simp [List.find?, hp]⟩
  | some x => exact ⟨x, by simp⟩

theorem find?_append_self_entry (l : List JournalEntryRow)
    (e : JournalEntryRow) (n : Int) (he : e.entry_number = n) :
    (l ++ [e]).find? (fun x => x.entry_number == n) ≠ none := by
  intro hnone
  have hmem := List.find?_eq_none.mp hnone e (List.mem_append_right _ (by simp))
  rw [he] at hmem
  exact absurd (beq_self_eq_true n) (by simpa using hmem)

theorem post_deposit_journal_get (s : DB) (aid cid : Int) (total rate : ℚ)
    (tdate : String) (notes : Option String) (cash : AccountRow)
    (hcash : s.accounts.find? (fun a =>
      a.account_type == "Asset" &&
        (likeContains a.name "Cash" || likeContains a.name "Bank")) = some cash)
    (hne : cash.id ≠ aid) (htot : 0 ≤ total) :
    get_account_balance_by_currency_internal
      (post_deposit_journal s aid cid total rate tdate notes) aid cid
    = get_account_balance_by_currency_internal s aid cid + total := by
  unfold post_deposit_journal
  rw [hcash]
  simp only [create_journal_entry_internal]
  split
  · next hnone =>
    exact absurd hnone (find?_append_self_entry s.journal_entries _ _ rfl)
  · next found hfound =>
    dsimp only
    rw [show ∀ (s1 : DB) (fid : Int) (x y : JournalLineInput),
        apply_journal_lines s1 fid [x, y]
          = journal_line_step (journal_line_step s1 fid x) fid y
      from fun _ _ _ _ => rfl]
    rw [journal_line_step_get_other _ _ _ _ _
      (fun hx => hne (hx.1.symm))]
    rw [journal_line_step_get_debit _ _ _ htot rfl]
    rfl

theorem post_withdraw_journal_get (s : DB) (aid cid : Int) (total rate : ℚ)
    (tdate : String) (notes : Option String) (expense : AccountRow)
    (hexp : s.accounts.find? (fun a => a.account_type == "Expense")
      = some expense)
    (hne : expense.id ≠ aid) :
    get_account_balance_by_currency_internal
      (post_withdraw_journal s aid cid total rate tdate notes) aid cid
    = get_account_balance_by_currency_internal s aid cid - total := by
  unfold post_withdraw_journal
  rw [hexp]
  simp only [create_journal_entry_internal]
  split
  · next hnone =>
    exact absurd hnone (find?_append_self_entry s.journal_entries _ _ rfl)
  · next found hfound =>
    dsimp only
    rw [show ∀ (s1 : DB) (fid : Int) (x y : JournalLineInput),
        apply_journal_lines s1 fid [x, y]
          = journal_line_step (journal_line_step s1 fid x) fid y
      from fun _ _ _ _ => rfl]
    rw [journal_line_step_get_credit _ _ _ (le_refl 0)]
    rw [journal_line_step_get_other _ _ _ _ _
      (fun hx => hne (hx.1.symm))]
    rfl

theorem set_account_current_balance_find (s : DB) (aid : Int) (nb : ℚ)
    (p : AccountRow → Bool)
    (hp : ∀ x nbx, p { x with current_balance := nbx } = p x) :
    (set_account_current_balance s aid nb).accounts.find? p
      = (s.accounts.find? p).map
          (fun a => if a.id == aid then { a with current_balance := nb } else a) := by
  unfold set_account_current_balance
  exact find?_map_pred_pres _ _ _ (fun x => by
    by_cases hx : (x.id == aid) = true
    · simp only [hx, if_true]
      exact hp x nb
    · simp only [hx, Bool.false_eq_true, if_false])

/-- C6 counterexample: the claimed bound `discount ≤ subtotal` fails.  For
subtotal 0.005 with a fixed discount of 0.005, the clamped value 0.005 is
rounded to 2 decimals half-away-from-zero, giving a discount of 0.01, which
exceeds the subtotal. -/
theorem c6_counterexample :
    compute_discount_amount (5/1000) (some "fixed") (5/1000) = 1/100 ∧
    ¬ compute_discount_amount (5/1000) (some "fixed") (5/1000) ≤ 5/1000 := by
  have h : compute_discount_amount (5/1000) (some "fixed") (5/1000) = 1/100 := by
    norm_num [compute_discount_amount, round2, rustRound, min_def, max_def]
    decide
  rw [h]
  norm_num

/-- C6 (amended): `compute_discount_amount` returns 0 when the subtotal is
non-positive or the type is neither percent nor fixed;
`round2(subtotal * clamp(value,0,100) / 100)` for percent and
`round2(clamp(value,0,subtotal))` for fixed on a positive subtotal; and for
all subtotal ≥ 0 the result lies between 0 and `round2(subtotal)` inclusive
(it can exceed the subtotal itself by the final 2-decimal rounding, by at
most 0.005). -/
theorem c6_discount_amended :
    (∀ (subtotal : ℚ) (dt : Option String) (v : ℚ), subtotal ≤ 0 →
      compute_discount_amount subtotal dt v = 0) ∧
    (∀ (subtotal : ℚ) (dt : Option String) (v : ℚ),
      dt ≠ some "percent" → dt ≠ some "fixed" →
      compute_discount_amount subtotal dt v = 0) ∧
    (∀ (subtotal v : ℚ), 0 < subtotal →
      compute_discount_amount subtotal (some "percent") v
        = round2 (subtotal * (min (max v 0) 100) / 100)) ∧
    (∀ (subtotal v : ℚ), 0 < subtotal →
      compute_discount_amount subtotal (some "fixed") v
        = round2 (min (max v 0) subtotal)) ∧
    (∀ (subtotal : ℚ) (dt : Option String) (v : ℚ), 0 ≤ subtotal →
      0 ≤ compute_discount_amount subtotal dt v ∧
      compute_discount_amount subtotal dt v ≤ round2 subtotal) := by
  have hzero : round2 0 = 0 := by
    simp [round2, rustRound_zero]
  refine ⟨?_, ?_, ?_, ?_, ?_⟩
  · intro subtotal dt v h
    simp [compute_discount_amount, h]
  · intro subtotal dt v hp hf
    unfold compute_discount_amount
    by_cases h : subtotal ≤ 0
    · simp [h]
    · simp only [if_neg h]
      cases dt with
      | none => rfl
      | some t =>
        have ht1 : (t == "percent") = false := by
          cases hb : (t == "percent") with
          | false => rfl
          | true => exact absurd (congrArg some (beq_iff_eq.mp hb)) hp
        have ht2 : (t == "fixed") = false := by
          cases hb : (t == "fixed") with
          | false => rfl
          | true => exact absurd (congrArg some (beq_iff_eq.mp hb)) hf
        simp [ht1, ht2]
  · intro subtotal v h
    have hb : (("percent" : String) == "percent") = true := rfl
    simp [compute_discount_amount, not_le.mpr h, hb]
  · intro subtotal v h
    have hb1 : (("fixed" : String) == "percent") = false := rfl
    have hb2 : (("fixed" : String) == "fixed") = true := rfl
    have hcl : max (min v subtotal) 0 = min (max v 0) subtotal := by
      rcases le_total v 0 with hv | hv
      · have h1 : min v subtotal = v := min_eq_left (by linarith)
        rw [h1, max_eq_right hv]
        exact (min_eq_left (le_of_lt h)).symm
      · rw [max_eq_left hv]
        rcases le_total v subtotal with hvs | hvs
        · rw [min_eq_left hvs]
          exact max_eq_left hv
        · rw [min_eq_right hvs]
          exact max_eq_left (le_of_lt h)
    simp [compute_discount_amount, not_le.mpr h, hb1, hb2, hcl]
  · intro subtotal dt v hs
    by_cases h0 : subtotal ≤ 0
    · have hsub : subtotal = 0 := le_antisymm h0 hs
      subst hsub
      simp [compute_discount_amount, hzero]
    · push_neg at h0
      unfold compute_discount_amount
      rw [if_neg (not_le.mpr h0)]
      cases dt with
      | none => exact ⟨le_refl 0, round2_nonneg hs⟩
      | some t =>
        dsimp only
        by_cases ht1 : (t == "percent") = true
        · rw [if_pos ht1]
          have hpct1 : 0 ≤ min (max v 0) 100 := le_min (le_max_right v 0) (by norm_num)
          have hpct2 : min (max v 0) 100 ≤ 100 := min_le_right _ _
          have harg1 : 0 ≤ subtotal * (min (max v 0) 100) / 100 := by positivity
          have harg2 : subtotal * (min (max v 0) 100) / 100 ≤ subtotal := by
            rw [div_le_iff₀ (by norm_num : (0:ℚ) < 100)]
            nlinarith
          exact ⟨round2_nonneg harg1, round2_mono harg2⟩
        · rw [if_neg ht1]
          by_cases ht2 : (t == "fixed") = true
          · rw [if_pos ht2]
            have harg1 : 0 ≤ max (min v subtotal) 0 := le_max_right _ _
            have harg2 : max (min v subtotal) 0 ≤ subtotal :=
              max_le (min_le_right v subtotal) hs
            exact ⟨round2_nonneg harg1, round2_mono harg2⟩
          · rw [if_neg ht2]
            exact ⟨le_refl 0, round2_nonneg hs⟩

/-- C6 witness: the amended theorem applied at concrete inputs — a negative
subtotal, an unrecognized type, a 10 percent discount, a clamped fixed
discount of 300 on 250, and the bound at subtotal 250. -/
theorem c6_witness :
    compute_discount_amount (-1) (some "percent") 50 = 0 ∧
    compute_discount_amount 250 none 10 = 0 ∧
    compute_discount_amount 250 (some "percent") 10
      = round2 (250 * (min (max (10:ℚ) 0) 100) / 100) ∧
    compute_discount_amount 250 (some "fixed") 300
      = round2 (min (max (300:ℚ) 0) 250) ∧
    (0 ≤ compute_discount_amount 250 (some "fixed") 300 ∧
      compute_discount_amount 250 (some "fixed") 300 ≤ round2 250) :=
  ⟨c6_discount_amended.1 (-1) (some "percent") 50 (by norm_num),
   c6_discount_amended.2.1 250 none 10 (by simp) (by simp),
   c6_discount_amended.2.2.1 250 10 (by norm_num),
   c6_discount_amended.2.2.2.1 250 300 (by norm_num),
   c6_discount_amended.2.2.2.2 250 (some "fixed") 300 (by norm_num)⟩

/-- C3: for an existing batch, `get_batch_remaining_base` returns the
purchased amount converted to base units minus the base-equivalents of all
sale lines referencing the batch, clamped at zero and rounded to 6 decimals;
for a missing batch id it fails with the not-found error. -/
theorem c3_remaining_base :
    (∀ (db : DB) (pid : Int) (b : PurchaseItemRow),
      db.purchase_items.find? (fun r => r.id == pid) = some b →
      get_batch_remaining_base db pid = .ok (spec_remaining_base db b)) ∧
    (∀ (db : DB) (pid : Int),
      db.purchase_items.find? (fun r => r.id == pid) = none →
      get_batch_remaining_base db pid = .error "Purchase item not found") := by
  constructor
  · intro db pid b hfind
    have hid : b.id = pid := by
      have hp := List.find?_some hfind
      simpa using hp
    unfold get_batch_remaining_base
    rw [hfind]
    simp only [spec_remaining_base, amount_to_base, hid]
  · intro db pid hfind
    unfold get_batch_remaining_base
    rw [hfind]

/-- C3 witness: the theorem applied to the store with a batch of 10 base
units (id 10) and a missing id 99. -/
theorem c3_witness :
    get_batch_remaining_base dbStock 10
      = .ok (spec_remaining_base dbStock
          { id := 10, product_id := 1, amount := 10, unit_id := 1 }) ∧
    get_batch_remaining_base dbStock 99
      = .error "Purchase item not found" :=
  ⟨c3_remaining_base.1 dbStock 10
      { id := 10, product_id := 1, amount := 10, unit_id := 1 } rfl,
   c3_remaining_base.2 dbStock 99 rfl⟩

/-- C9 counterexample: for unit 1 of `dbStock` the ratio is 1 > 0, yet the
round trip of 4e-7 through `amount_to_base` and the base-to-unit conversion
of `get_product_stock` returns 0, which differs from 4e-7 by more than the
claimed 1e-9 tolerance (the conversion rounds to 6 decimal places). -/
theorem c9_counterexample :
    get_unit_ratio dbStock 1 = 1 ∧
    from_base dbStock (amount_to_base dbStock (4/10000000) 1) 1 = 0 ∧
    ¬ |from_base dbStock (amount_to_base dbStock (4/10000000) 1) 1
        - 4/10000000| ≤ stockEps := by
  have h : from_base dbStock (amount_to_base dbStock (4/10000000) 1) 1 = 0 := by
    norm_num [from_base, amount_to_base, get_unit_ratio, dbStock, emptyDB,
      round6, rustRound]
  refine ⟨rfl, h, ?_⟩
  rw [h, stockEps, zero_sub, abs_neg, abs_of_nonneg (by norm_num)]
  norm_num

/-- C9 (amended): for any unit whose ratio r satisfies |r| ≥ 1e-12 and any
amount a, converting to base units and back returns `round6 a` exactly, hence
a value within 5e-7 of a (the 6-decimal rounding applied by the conversion);
the claimed 1e-9 tolerance holds only for amounts already rounded to 6
decimals. -/
theorem c9_round_trip_amended (db : DB) (uid : Int) (a : ℚ)
    (h : 1/1000000000000 ≤ |get_unit_ratio db uid|) :
    from_base db (amount_to_base db a uid) uid = round6 a ∧
    |round6 a - a| ≤ 1/2000000 := by
  have hr0 : get_unit_ratio db uid ≠ 0 := by
    intro h0
    rw [h0] at h
    norm_num at h
  constructor
  · unfold from_base amount_to_base
    rw [if_neg (not_lt.mpr h), mul_div_cancel_right₀ a hr0]
  · exact abs_round6_sub_le a

/-- C9 witness: the amended theorem applied to unit 1 of `dbStock` (ratio 1)
and amount 1/4. -/
theorem c9_witness :
    from_base dbStock (amount_to_base dbStock (1/4) 1) 1 = round6 (1/4) ∧
    |round6 (1/4) - 1/4| ≤ 1/2000000 :=
  c9_round_trip_amended dbStock 1 (1/4) (by
    rw [show get_unit_ratio dbStock 1 = 1 from rfl]
    norm_num)

set_option maxHeartbeats 1600000 in
/-- C5 counterexample: posting a balanced entry (debits = credits = 10) on a
store whose (account 1, currency 1) stored balance has drifted to 100 with no
journal lines, then reconciling that pair immediately, reports
`is_balanced = false`. -/
theorem c5_counterexample :
    (([{ account_id := 1, currency_id := 1, debit_amount := 10
         credit_amount := 0, exchange_rate := 1, description := none },
       { account_id := 2, currency_id := 1, debit_amount := 0
         credit_amount := 10, exchange_rate := 1, description := none }]
       : List JournalLineInput).map (fun l => l.debit_amount)).sum
      = (([{ account_id := 1, currency_id := 1, debit_amount := 10
             credit_amount := 0, exchange_rate := 1, description := none },
           { account_id := 2, currency_id := 1, debit_amount := 0
             credit_amount := 10, exchange_rate := 1, description := none }]
           : List JournalLineInput).map (fun l => l.credit_amount)).sum ∧
    (reconcile_account_balance
      ((create_journal_entry dbDrift "2024-01-01" none none none
        [{ account_id := 1, currency_id := 1, debit_amount := 10
           credit_amount := 0, exchange_rate := 1, description := none },
         { account_id := 2, currency_id := 1, debit_amount := 0
           credit_amount := 10, exchange_rate := 1, description := none }]).2)
      1 1).is_balanced = false := by
  constructor
  · norm_num
  · norm_num [reconcile_account_balance, create_journal_entry,
      create_journal_entry_internal, apply_journal_lines, journal_line_step,
      next_entry_number, dbDrift, emptyDB,
      get_account_balance_by_currency_internal,
      update_account_currency_balance_internal, abs_eq_max_neg, max_def]

/-- C5 (amended): posting a journal entry each of whose lines carries a
nonnegative debit and no positive debit together with a nonzero credit leaves
every (account, currency) pair's reconciliation difference unchanged; hence
when reconcile reports the pair balanced before the entry is posted (as on a
pair without prior drift) it still reports it balanced immediately
afterwards.  Without the no-prior-drift hypothesis the original claim fails. -/
theorem c5_reconcile_amended (db : DB) (entry_date : String)
    (description reference_type : Option String) (reference_id : Option Int)
    (lines : List JournalLineInput) (a c : Int)
    (hbal : (lines.map (fun l => l.debit_amount)).sum
      = (lines.map (fun l => l.credit_amount)).sum)
    (hwf : ∀ l ∈ lines, 0 ≤ l.debit_amount ∧
      (0 < l.debit_amount → l.credit_amount = 0)) :
    (reconcile_account_balance
      ((create_journal_entry db entry_date description reference_type
        reference_id lines).2) a c).difference
      = (reconcile_account_balance db a c).difference ∧
    ((reconcile_account_balance db a c).is_balanced = true →
      (reconcile_account_balance
        ((create_journal_entry db entry_date description reference_type
          reference_id lines).2) a c).is_balanced = true) := by
  have hdiff := reconcile_diff_create_journal_entry db entry_date description
    reference_type reference_id lines a c hwf
  refine ⟨hdiff, fun hb => ?_⟩
  rw [reconcile_is_balanced_iff] at hb ⊢
  rw [hdiff]
  exact hb

/-- C5 witness: the amended theorem applied to the empty store (no prior
drift on the pair) and the balanced two-line entry used in the
counterexample; reconciliation stays balanced. -/
theorem c5_witness :
    (reconcile_account_balance
      ((create_journal_entry emptyDB "2024-01-01" none none none
        [{ account_id := 1, currency_id := 1, debit_amount := 10
           credit_amount := 0, exchange_rate := 1, description := none },
         { account_id := 2, currency_id := 1, debit_amount := 0
           credit_amount := 10, exchange_rate := 1, description := none }]).2)
      1 1).is_balanced = true :=
  (c5_reconcile_amended emptyDB "2024-01-01" none none none
    [{ account_id := 1, currency_id := 1, debit_amount := 10
       credit_amount := 0, exchange_rate := 1, description := none },
     { account_id := 2, currency_id := 1, debit_amount := 0
       credit_amount := 10, exchange_rate := 1, description := none }]
    1 1 (by norm_num) (by norm_num)).2 (by
      rw [reconcile_is_balanced_iff, reconcile_difference_eq]
      norm_num [get_account_balance_by_currency_internal, emptyDB])

/-- C8: for a non-full withdrawal, a non-positive amount is rejected as an
invalid amount and an `amount * rate` exceeding the recomputed total balance
is rejected as insufficient (both before any mutation); for a full
withdrawal, a non-positive recomputed balance is rejected as no-balance and
otherwise exactly the recomputed total is withdrawn — the transaction's
amount equals that total and no insufficiency check against the recomputed
total is applied. -/
theorem c8_withdraw_checks (db : DB) (account_id : Int) (amount : ℚ)
    (currency : String) (rate : ℚ) (date : String) (notes : Option String) :
    (amount ≤ 0 →
      withdraw_account db account_id amount currency rate date false notes
        = (.error "Withdrawal amount must be greater than 0", db)) ∧
    (0 < amount →
      amount * rate > calculate_account_balance_internal db account_id →
      withdraw_account db account_id amount currency rate date false notes
        = (.error "Insufficient balance for withdrawal", db)) ∧
    (calculate_account_balance_internal db account_id ≤ 0 →
      withdraw_account db account_id amount currency rate date true notes
        = (.error "Account has no balance to withdraw", db)) ∧
    (0 < calculate_account_balance_internal db account_id →
      ∀ cur : CurrencyRow,
      db.currencies.find? (fun cr => cr.name == currency) = some cur →
      (∀ t ∈ db.account_transactions, t.id < db.next_transaction_id) →
      ∃ tx, (withdraw_account db account_id amount currency rate date true notes).1
          = .ok tx ∧
        tx.amount = calculate_account_balance_internal db account_id ∧
        tx.total = calculate_account_balance_internal db account_id * rate) := by
  refine ⟨?_, ?_, ?_, ?_⟩
  · intro h
    simp [withdraw_account, h]
  · intro h1 h2
    simp [withdraw_account, not_le.mpr h1, h2]
  · intro h
    simp [withdraw_account, h]
  · intro hpos cur hcur hids
    have hsing : ∀ t : AccountTransactionRow, t.account_id = account_id →
        t.transaction_type = "withdraw" →
        List.filter (fun t => t.account_id == account_id &&
          t.transaction_type == "withdraw") [t] = [t] := by
      intro t h1 h2
      simp [h1, h2]
    simp only [withdraw_account, hcur, not_le.mpr hpos, if_false, if_true]
    rw [(post_withdraw_journal_pres _ _ _ _ _ _ _).2.2.2.2.2.2.1]
    dsimp only [set_account_current_balance]
    rw [(update_acb_pres _ _ _ _).2.2.2.2.2.2.1]
    dsimp only
    rw [List.filter_append, hsing _ rfl rfl]
    rw [maxByKey_append_max (fun t => t.id) _ _
      (fun x hx => hids x (List.mem_filter.mp hx).1)]
    exact ⟨_, rfl, rfl, rfl⟩

/-- C8 witness: the theorem applied to the ledger store — a negative
withdrawal, an oversized withdrawal (120 against a balance of 100), a full
withdrawal on a zero-balance account, and a full withdrawal on the
100-balance account. -/
theorem c8_witness :
    withdraw_account dbLedger 5 (-1) "USD" 1 "2024-01-02" false none
      = (.error "Withdrawal amount must be greater than 0", dbLedger) ∧
    withdraw_account dbLedger 5 60 "USD" 2 "2024-01-02" false none
      = (.error "Insufficient balance for withdrawal", dbLedger) ∧
    withdraw_account dbLedger 8 5 "USD" 1 "2024-01-02" true none
      = (.error "Account has no balance to withdraw", dbLedger) ∧
    ∃ tx, (withdraw_account dbLedger 5 0 "USD" 2 "2024-01-02" true none).1
        = .ok tx ∧
      tx.amount = calculate_account_balance_internal dbLedger 5 ∧
      tx.total = calculate_account_balance_internal dbLedger 5 * 2 := by
  have hc5 : calculate_account_balance_internal dbLedger 5 = 100 := by
    norm_num [calculate_account_balance_internal, dbLedger, emptyDB]
  have hc8 : calculate_account_balance_internal dbLedger 8 = 0 := by
    norm_num [calculate_account_balance_internal, dbLedger, emptyDB]
  exact ⟨(c8_withdraw_checks dbLedger 5 (-1) "USD" 1 "2024-01-02" none).1
      (by norm_num),
    (c8_withdraw_checks dbLedger 5 60 "USD" 2 "2024-01-02" none).2.1
      (by norm_num) (by norm_num [hc5]),
    (c8_withdraw_checks dbLedger 8 5 "USD" 1 "2024-01-02" none).2.2.1
      (by norm_num [hc8]),
    (c8_withdraw_checks dbLedger 5 0 "USD" 2 "2024-01-02" none).2.2.2
      (by norm_num [hc5]) { id := 1, name := "USD", base := true } rfl
      (by intro t ht; simp [dbLedger, emptyDB] at ht)⟩

/-- C10: a successful non-full deposit of amount a at rate r ≥ 0 (with the
target currency resolving and a Cash/Bank asset account distinct from the
deposited account existing) updates the deposited account's stored
per-currency balance twice — by +a through the direct upsert and by +a*r
through the debit line of the posted journal entry — so the balance grows by
a + a*r; a successful non-full withdrawal symmetrically shrinks it by
a + a*r (the direct upsert subtracts a and the credit line of the entry
posted against the Expense account subtracts a*r). -/
theorem c10_double_balance_update :
    (∀ (db : DB) (account_id : Int) (amount : ℚ) (currency : String)
        (rate : ℚ) (date : String) (notes : Option String)
        (cur : CurrencyRow) (cash : AccountRow),
      db.currencies.find? (fun cr => cr.name == currency) = some cur →
      db.accounts.find? (fun a => a.account_type == "Asset" &&
        (likeContains a.name "Cash" || likeContains a.name "Bank")) = some cash →
      cash.id ≠ account_id → 0 < amount → 0 ≤ rate →
      get_account_balance_by_currency_internal
        ((deposit_account db account_id amount currency rate date false notes).2)
        account_id cur.id
      = get_account_balance_by_currency_internal db account_id cur.id
        + amount + amount * rate) ∧
    (∀ (db : DB) (account_id : Int) (amount : ℚ) (currency : String)
        (rate : ℚ) (date : String) (notes : Option String)
        (cur : CurrencyRow) (expense : AccountRow),
      db.currencies.find? (fun cr => cr.name == currency) = some cur →
      db.accounts.find? (fun a => a.account_type == "Expense") = some expense →
      expense.id ≠ account_id → 0 < amount →
      amount * rate ≤ calculate_account_balance_internal db account_id →
      get_account_balance_by_currency_internal
        ((withdraw_account db account_id amount currency rate date false notes).2)
        account_id cur.id
      = get_account_balance_by_currency_internal db account_id cur.id
        - amount - amount * rate) := by
  constructor
  · intro db account_id amount currency rate date notes cur cash hcur hcash hne
      hamt hrate
    have hstate : (deposit_account db account_id amount currency rate date false notes).2
        = post_deposit_journal
            (set_account_current_balance
              (update_account_currency_balance_internal
                { db with
                  account_transactions := db.account_transactions ++
                    [{ id := db.next_transaction_id, account_id := account_id,
                       transaction_type := "deposit", amount := amount,
                       currency := currency, rate := rate, total := amount * rate,
                       transaction_date := date, is_full := false, notes := notes }],
                  next_transaction_id := db.next_transaction_id + 1 }
                account_id cur.id
                (get_account_balance_by_currency_internal
                  { db with
                    account_transactions := db.account_transactions ++
                      [{ id := db.next_transaction_id, account_id := account_id,
                         transaction_type := "deposit", amount := amount,
                         currency := currency, rate := rate, total := amount * rate,
                         transaction_date := date, is_full := false, notes := notes }],
                    next_transaction_id := db.next_transaction_id + 1 }
                  account_id cur.id + amount))
              account_id
              (calculate_account_balance_internal
                (update_account_currency_balance_internal
                  { db with
                    account_transactions := db.account_transactions ++
                      [{ id := db.next_transaction_id, account_id := account_id,
                         transaction_type := "deposit", amount := amount,
                         currency := currency, rate := rate, total := amount * rate,
                         transaction_date := date, is_full := false, notes := notes }],
                    next_transaction_id := db.next_transaction_id + 1 }
                  account_id cur.id
                  (get_account_balance_by_currency_internal
                    { db with
                      account_transactions := db.account_transactions ++
                        [{ id := db.next_transaction_id, account_id := account_id,
                           transaction_type := "deposit", amount := amount,
                           currency := currency, rate := rate, total := amount * rate,
                           transaction_date := date, is_full := false, notes := notes }],
                      next_transaction_id := db.next_transaction_id + 1 }
                    account_id cur.id + amount))
                account_id))
            account_id cur.id (amount * rate) rate date notes := by
      simp only [deposit_account]
      rw [if_neg Bool.false_ne_true, if_neg (not_le.mpr hamt), hcur]
      dsimp only
      split <;> rfl
    rw [hstate]
    set X1 : DB := { db with
      account_transactions := db.account_transactions ++
        [{ id := db.next_transaction_id, account_id := account_id,
           transaction_type := "deposit", amount := amount,
           currency := currency, rate := rate, total := amount * rate,
           transaction_date := date, is_full := false, notes := notes }],
      next_transaction_id := db.next_transaction_id + 1 } with hX1
    set X2 : DB := update_account_currency_balance_internal X1 account_id cur.id
      (get_account_balance_by_currency_internal X1 account_id cur.id + amount) with hX2
    set X3 : DB := set_account_current_balance X2 account_id
      (calculate_account_balance_internal X2 account_id) with hX3
    have hfind3 : X3.accounts.find? (fun a => a.account_type == "Asset" &&
        (likeContains a.name "Cash" || likeContains a.name "Bank"))
        = some (if cash.id == account_id then
            { cash with current_balance := calculate_account_balance_internal X2 account_id }
          else cash) := by
      rw [hX3, set_account_current_balance_find _ _ _
        (fun a => a.account_type == "Asset" &&
          (likeContains a.name "Cash" || likeContains a.name "Bank"))
        (fun x nbx => rfl),
        (update_acb_pres _ _ _ _).2.2.2.2.2.1]
      rw [hX1]
      dsimp only
      rw [hcash]
      rfl
    have hid3 : (if cash.id == account_id then
        { cash with current_balance := calculate_account_balance_internal X2 account_id }
      else cash).id = cash.id := by
      by_cases h : (cash.id == account_id) = true
      · simp [h]
      · simp [h]
    rw [post_deposit_journal_get X3 account_id cur.id (amount * rate) rate date notes
      _ hfind3 (by rw [hid3]; exact hne) (mul_nonneg (le_of_lt hamt) hrate)]
    have h3 : get_account_balance_by_currency_internal X3 account_id cur.id
        = get_account_balance_by_currency_internal X2 account_id cur.id :=
      acb_get_congr X2 X3 (by rw [hX3, set_account_current_balance]) account_id cur.id
    rw [h3, hX2, acb_get_update_same]
    rw [show get_account_balance_by_currency_internal X1 account_id cur.id
        = get_account_balance_by_currency_internal db account_id cur.id from
      acb_get_congr db X1 (by rw [hX1]) account_id cur.id]
  · intro db account_id amount currency rate date notes cur expense hcur hexp hne
      hamt hle
    have hstate : (withdraw_account db account_id amount currency rate date false notes).2
        = post_withdraw_journal
            (set_account_current_balance
              (update_account_currency_balance_internal
                { db with
                  account_transactions := db.account_transactions ++
                    [{ id := db.next_transaction_id, account_id := account_id,
                       transaction_type := "withdraw", amount := amount,
                       currency := currency, rate := rate, total := amount * rate,
                       transaction_date := date, is_full := false, notes := notes }],
                  next_transaction_id := db.next_transaction_id + 1 }
                account_id cur.id
                (get_account_balance_by_currency_internal
                  { db with
                    account_transactions := db.account_transactions ++
                      [{ id := db.next_transaction_id, account_id := account_id,
                         transaction_type := "withdraw", amount := amount,
                         currency := currency, rate := rate, total := amount * rate,
                         transaction_date := date, is_full := false, notes := notes }],
                    next_transaction_id := db.next_transaction_id + 1 }
                  account_id cur.id - amount))
              account_id
              (calculate_account_balance_internal
                (update_account_currency_balance_internal
                  { db with
                    account_transactions := db.account_transactions ++
                      [{ id := db.next_transaction_id, account_id := account_id,
                         transaction_type := "withdraw", amount := amount,
                         currency := currency, rate := rate, total := amount * rate,
                         transaction_date := date, is_full := false, notes := notes }],
                    next_transaction_id := db.next_transaction_id + 1 }
                  account_id cur.id
                  (get_account_balance_by_currency_internal
                    { db with
                      account_transactions := db.account_transactions ++
                        [{ id := db.next_transaction_id, account_id := account_id,
                           transaction_type := "withdraw", amount := amount,
                           currency := currency, rate := rate, total := amount * rate,
                           transaction_date := date, is_full := false, notes := notes }],
                      next_transaction_id := db.next_transaction_id + 1 }
                    account_id cur.id - amount))
                account_id))
            account_id cur.id (amount * rate) rate date notes := by
      simp only [withdraw_account]
      rw [if_neg Bool.false_ne_true, if_neg (not_le.mpr hamt),
        if_neg (not_lt.mpr hle), hcur]
      dsimp only
      split <;> rfl
    rw [hstate]
    set X1 : DB := { db with
      account_transactions := db.account_transactions ++
        [{ id := db.next_transaction_id, account_id := account_id,
           transaction_type := "withdraw", amount := amount,
           currency := currency, rate := rate, total := amount * rate,
           transaction_date := date, is_full := false, notes := notes }],
      next_transaction_id := db.next_transaction_id + 1 } with hX1
    set X2 : DB := update_account_currency_balance_internal X1 account_id cur.id
      (get_account_balance_by_currency_internal X1 account_id cur.id - amount) with hX2
    set X3 : DB := set_account_current_balance X2 account_id
      (calculate_account_balance_internal X2 account_id) with hX3
    have hfind3 : X3.accounts.find? (fun a => a.account_type == "Expense")
        = some (if expense.id == account_id then
            { expense with current_balance := calculate_account_balance_internal X2 account_id }
          else expense) := by
      rw [hX3, set_account_current_balance_find _ _ _
        (fun a => a.account_type == "Expense") (fun x nbx => rfl),
        (update_acb_pres _ _ _ _).2.2.2.2.2.1]
      rw [hX1]
      dsimp only
      rw [hexp]
      rfl
    have hid3 : (if expense.id == account_id then
        { expense with current_balance := calculate_account_balance_internal X2 account_id }
      else expense).id = expense.id := by
      by_cases h : (expense.id == account_id) = true
      · simp [h]
      · simp [h]
    rw [post_withdraw_journal_get X3 account_id cur.id (amount * rate) rate date notes
      _ hfind3 (by rw [hid3]; exact hne)]
    have h3 : get_account_balance_by_currency_internal X3 account_id cur.id
        = get_account_balance_by_currency_internal X2 account_id cur.id :=
      acb_get_congr X2 X3 (by rw [hX3, set_account_current_balance]) account_id cur.id
    rw [h3, hX2, acb_get_update_same]
    rw [show get_account_balance_by_currency_internal X1 account_id cur.id
        = get_account_balance_by_currency_internal db account_id cur.id from
      acb_get_congr db X1 (by rw [hX1]) account_id cur.id]

/-- C10 witness: the theorem applied to the ledger store — depositing 10 at
rate 2 into account 5 grows its USD stored balance by 10 + 20, and
withdrawing 10 at rate 2 shrinks it by 10 + 20. -/
theorem c10_witness :
    get_account_balance_by_currency_internal
      ((deposit_account dbLedger 5 10 "USD" 2 "2024-01-02" false none).2) 5 1
    = get_account_balance_by_currency_internal dbLedger 5 1 + 10 + 10 * 2 ∧
    get_account_balance_by_currency_internal
      ((withdraw_account dbLedger 5 10 "USD" 2 "2024-01-02" false none).2) 5 1
    = get_account_balance_by_currency_internal dbLedger 5 1 - 10 - 10 * 2 := by
  have hc5 : calculate_account_balance_internal dbLedger 5 = 100 := by
    norm_num [calculate_account_balance_internal, dbLedger, emptyDB]
  exact ⟨c10_double_balance_update.1 dbLedger 5 10 "USD" 2 "2024-01-02" none
      { id := 1, name := "USD", base := true }
      { id := 7, name := "Main Cash", account_type := "Asset",
        initial_balance := 0, current_balance := 0 }
      rfl rfl (by norm_num) (by norm_num) (by norm_num),
    c10_double_balance_update.2 dbLedger 5 10 "USD" 2 "2024-01-02" none
      { id := 1, name := "USD", base := true }
      { id := 8, name := "Misc", account_type := "Expense",
        initial_balance := 0, current_balance := 0 }
      rfl rfl (by norm_num) (by norm_num) (by norm_num [hc5])⟩

theorem spec_initial_congr (s s' : DB) (h : s'.accounts = s.accounts)
    (aid : Int) : spec_initial_balance s' aid = spec_initial_balance s aid := by
  unfold spec_initial_balance
  rw [h]

theorem spec_initial_set_account (s : DB) (aid : Int) (nb : ℚ) (aid' : Int) :
    spec_initial_balance (set_account_current_balance s aid nb) aid'
      = spec_initial_balance s aid' := by
  unfold spec_initial_balance
  rw [set_account_current_balance_find s aid nb (fun a => a.id == aid')
    (fun x nbx => rfl)]
  cases s.accounts.find? (fun a => a.id == aid') with
  | none => rfl
  | some a =>
    dsimp only [Option.map]
    split <;> rfl

theorem deposit_account_spec_initial (db : DB) (account_id : Int) (amount : ℚ)
    (currency : String) (rate : ℚ) (date : String) (f : Bool)
    (notes : Option String) (aid' : Int) :
    spec_initial_balance
      ((deposit_account db account_id amount currency rate date f notes).2) aid'
    = spec_initial_balance db aid' := by
  simp only [deposit_account]
  split
  · rfl
  · split
    · rfl
    · split <;>
      · dsimp only
        exact (spec_initial_congr _ _
            ((post_deposit_journal_pres _ _ _ _ _ _ _).2.2.2.2.2.1) aid').trans
          ((spec_initial_set_account _ _ _ _).trans
            ((spec_initial_congr _ _
              ((update_acb_pres _ _ _ _).2.2.2.2.2.1) aid').trans
              (spec_initial_congr _ _ rfl aid')))

theorem withdraw_account_spec_initial (db : DB) (account_id : Int) (amount : ℚ)
    (currency : String) (rate : ℚ) (date : String) (f : Bool)
    (notes : Option String) (aid' : Int) :
    spec_initial_balance
      ((withdraw_account db account_id amount currency rate date f notes).2) aid'
    = spec_initial_balance db aid' := by
  simp only [withdraw_account]
  split
  · rfl
  · split
    · rfl
    · split <;>
      · dsimp only
        exact (spec_initial_congr _ _
            ((post_withdraw_journal_pres _ _ _ _ _ _ _).2.2.2.2.2.1) aid').trans
          ((spec_initial_set_account _ _ _ _).trans
            ((spec_initial_congr _ _
              ((update_acb_pres _ _ _ _).2.2.2.2.2.1) aid').trans
              (spec_initial_congr _ _ rfl aid')))

theorem applyAccountOps_spec_initial (account_id : Int) (ops : List AccountOp) :
    ∀ (db : DB) (aid' : Int),
    spec_initial_balance (applyAccountOps db account_id ops) aid'
      = spec_initial_balance db aid' := by
  induction ops with
  | nil => intro db aid'; rfl
  | cons op rest ih =>
    intro db aid'
    refine (ih (applyAccountOp db account_id op) aid').trans ?_
    cases op with
    | dep a c r d f n => exact deposit_account_spec_initial db account_id a c r d f n aid'
    | wd a c r d f n => exact withdraw_account_spec_initial db account_id a c r d f n aid'

/-- C4: `calculate_account_balance_internal` returns the account's initial
balance plus the sum of the `total` field of its deposit transactions minus
the sum of the `total` field of its withdraw transactions, summed across all
currencies without segregation; hence after any sequence of deposits and
withdrawals on a fresh account with initial balance b0 it equals b0 plus the
deposit totals minus the withdrawal totals recorded in the store. -/
theorem c4_ledger_identity :
    (∀ (db : DB) (account_id : Int),
      calculate_account_balance_internal db account_id
        = spec_initial_balance db account_id
          + spec_transaction_total_sum db account_id "deposit"
          - spec_transaction_total_sum db account_id "withdraw") ∧
    (∀ (db : DB) (account_id : Int) (acc : AccountRow) (b0 : ℚ)
        (ops : List AccountOp),
      db.accounts.find? (fun a => a.id == account_id) = some acc →
      acc.initial_balance = b0 →
      db.account_transactions.filter (fun t => t.account_id == account_id) = [] →
      calculate_account_balance_internal (applyAccountOps db account_id ops)
          account_id
        = b0 + spec_transaction_total_sum (applyAccountOps db account_id ops)
              account_id "deposit"
          - spec_transaction_total_sum (applyAccountOps db account_id ops)
              account_id "withdraw") := by
  have h1 : ∀ (db : DB) (account_id : Int),
      calculate_account_balance_internal db account_id
        = spec_initial_balance db account_id
          + spec_transaction_total_sum db account_id "deposit"
          - spec_transaction_total_sum db account_id "withdraw" :=
    fun db account_id => rfl
  refine ⟨h1, ?_⟩
  intro db account_id acc b0 ops hacc hb0 _hfresh
  rw [h1, applyAccountOps_spec_initial]
  unfold spec_initial_balance
  rw [hacc]
  dsimp only
  rw [hb0]

/-- C4 witness: the theorem applied to the ledger store's fresh account 5
with initial balance 100 and a deposit followed by a withdrawal. -/
theorem c4_witness :
    calculate_account_balance_internal
      (applyAccountOps dbLedger 5
        [.dep 10 "USD" 2 "2024-01-02" false none,
         .wd 3 "USD" 1 "2024-01-03" false none]) 5
    = 100 + spec_transaction_total_sum
          (applyAccountOps dbLedger 5
            [.dep 10 "USD" 2 "2024-01-02" false none,
             .wd 3 "USD" 1 "2024-01-03" false none]) 5 "deposit"
      - spec_transaction_total_sum
          (applyAccountOps dbLedger 5
            [.dep 10 "USD" 2 "2024-01-02" false none,
             .wd 3 "USD" 1 "2024-01-03" false none]) 5 "withdraw" :=
  c4_ledger_identity.2 dbLedger 5
    { id := 5, name := "Wallet", account_type := "Equity",
      initial_balance := 100, current_balance := 100 }
    100
    [.dep 10 "USD" 2 "2024-01-02" false none,
     .wd 3 "USD" 1 "2024-01-03" false none]
    rfl rfl rfl

theorem update_sale_total_sale_items (s : DB) (sale_id : Int) :
    (update_sale_total s sale_id).sale_items = s.sale_items := rfl

/-- C7: updating a sale line that references a batch validates against the
consumption state excluding the row being updated — when the old row
references the same batch its old base-equivalent amount is added back to the
batch's remaining base quantity — and the update is rejected with the
insufficient-stock error exactly when the proposed base amount exceeds the
remaining base plus that add-back plus 1e-9. -/
theorem c7_update_validation (db : DB) (id product_id unit_id : Int)
    (per_price amount : ℚ) (pid : Int) (sale_type discount_type : Option String)
    (discount_value : ℚ) (cur : SaleItemRow)
    (hcur : db.sale_items.find? (fun si => si.id == id) = some cur)
    (rem : ℚ) (hrem : get_batch_remaining_base db pid = .ok rem) :
    ((update_sale_item db id product_id unit_id per_price amount (some pid)
        sale_type discount_type discount_value).1
      = .error insufficientStockMsg)
    ↔ amount_to_base db amount unit_id
        > rem + (if cur.purchase_item_id == some pid then
            amount_to_base db cur.amount cur.unit_id else 0) + stockEps := by
  simp only [update_sale_item, hcur, hrem]
  by_cases h : amount_to_base db amount unit_id
      > rem + (if cur.purchase_item_id == some pid then
          amount_to_base db cur.amount cur.unit_id else 0) + stockEps
  · rw [if_pos h]
    exact ⟨fun _ => h, fun _ => rfl⟩
  · rw [if_neg h]
    have hf1 : (db.sale_items.map (fun si =>
        if si.id == id then
          { si with
            product_id := product_id, unit_id := unit_id
            per_price := per_price, amount := amount
            total := round2 (per_price * amount -
              compute_discount_amount (per_price * amount) discount_type discount_value)
            purchase_item_id := some pid, sale_type := sale_type
            discount_type := discount_type, discount_value := discount_value }
        else si)).find? (fun si => si.id == id)
        = some (if cur.id == id then
            { cur with
              product_id := product_id, unit_id := unit_id
              per_price := per_price, amount := amount
              total := round2 (per_price * amount -
                compute_discount_amount (per_price * amount) discount_type discount_value)
              purchase_item_id := some pid, sale_type := sale_type
              discount_type := discount_type, discount_value := discount_value }
          else cur) := by
      rw [find?_map_pred_pres db.sale_items (fun si => si.id == id) _
        (fun x => by
          by_cases hx : (x.id == id) = true
          · simp only [hx, if_true]
          · simp only [hx, Bool.false_eq_true, if_false])]
      rw [hcur]
      rfl
    rw [hf1]
    dsimp only
    rw [update_sale_total_sale_items, hf1]
    dsimp only
    exact ⟨fun hcontra => absurd hcontra (by simp), fun hgt => absurd hgt h⟩

/-- C7 witness: the theorem applied to the store with one existing sale line
consuming 4 of batch 10's original 10 base units (6 remaining); proposing 11
exceeds 6 + 4 + 1e-9 and is rejected as insufficient stock. -/
theorem c7_witness :
    (update_sale_item dbStockSold 1 1 1 5 11 (some 10) none none 0).1
      = .error insufficientStockMsg :=
  (c7_update_validation dbStockSold 1 1 1 5 11 10 none none 0
    { id := 1, sale_id := 1, product_id := 1, unit_id := 1
      per_price := 5, amount := 4, total := 20
      purchase_item_id := some 10, sale_type := none
      discount_type := none, discount_value := 0 }
    rfl 6
    (by norm_num [get_batch_remaining_base, dbStockSold, dbStock, emptyDB,
      amount_to_base, get_unit_ratio, round6, rustRound])).mpr
    (by norm_num [amount_to_base, get_unit_ratio, dbStockSold, dbStock,
      emptyDB, stockEps])

theorem usedLookup_nonneg (used : List (Int × ℚ)) (pid : Int)
    (h : ∀ e ∈ used, 0 ≤ e.2) : 0 ≤ usedLookup used pid := by
  unfold usedLookup
  cases hf : used.find? (fun e => e.1 == pid) with
  | none => exact le_refl 0
  | some e => exact h e (List.mem_of_find?_eq_some hf)

theorem usedInsert_nonneg (used : List (Int × ℚ)) (pid : Int) (v : ℚ)
    (h : ∀ e ∈ used, 0 ≤ e.2) (hv : 0 ≤ v) :
    ∀ e ∈ usedInsert used pid v, 0 ≤ e.2 := by
  unfold usedInsert
  split
  · intro e he
    obtain ⟨a, ha, rfl⟩ := List.mem_map.mp he
    by_cases hp : (a.1 == pid) = true
    · simp only [hp, if_true]
      exact hv
    · simp only [hp, Bool.false_eq_true, if_false]
      exact h a ha
  · intro e he
    rcases List.mem_append.mp he with h1 | h2
    · exact h e h1
    · rw [List.mem_singleton.mp h2]
      exact hv

/-- When every accumulated usage is nonnegative, every item's base amount is
nonnegative and every referenced batch exists, the validation loop of
`create_sale` reports `insufficientStockMsg` as soon as one member item's
base amount alone exceeds its batch's remaining quantity plus `stockEps`. -/
theorem validate_sale_items_error (db : DB) (items : List SaleItemInput) :
    ∀ (used : List (Int × ℚ)),
    (∀ e ∈ used, 0 ≤ e.2) →
    (∀ it ∈ items, 0 ≤ amount_to_base db it.amount it.unit_id) →
    (∀ it ∈ items, ∀ pid, it.purchase_item_id = some pid →
      ∃ r, get_batch_remaining_base db pid = .ok r) →
    ∀ it0 ∈ items, ∀ pid0, it0.purchase_item_id = some pid0 →
    ∀ rem, get_batch_remaining_base db pid0 = .ok rem →
    amount_to_base db it0.amount it0.unit_id > rem + stockEps →
    validate_sale_items db items used = .error insufficientStockMsg := by
  induction items with
  | nil =>
    intro used _ _ _ it0 hmem
    exact absurd hmem (List.not_mem_nil it0)
  | cons it rest ih =>
    intro used hused hnn hex it0 hmem pid0 hpid0 rem hrem hgt
    rcases List.mem_cons.mp hmem with heq | hmemrest
    · subst heq
      simp only [validate_sale_items, hpid0, hrem]
      have hpos : usedLookup used pid0 + amount_to_base db it0.amount it0.unit_id
          > rem + stockEps := by
        have := usedLookup_nonneg used pid0 hused
        linarith
      rw [if_pos hpos]
    · cases hitp : it.purchase_item_id with
      | none =>
        simp only [validate_sale_items, hitp]
        exact ih used hused (fun x hx => hnn x (by simp [hx]))
          (fun x hx => hex x (by simp [hx])) it0 hmemrest pid0 hpid0 rem hrem hgt
      | some pid1 =>
        obtain ⟨r1, hr1⟩ := hex it (by simp) pid1 hitp
        simp only [validate_sale_items, hitp, hr1]
        by_cases hc : usedLookup used pid1 + amount_to_base db it.amount it.unit_id
            > r1 + stockEps
        · rw [if_pos hc]
        · rw [if_neg hc]
          exact ih
            (usedInsert used pid1
              (usedLookup used pid1 + amount_to_base db it.amount it.unit_id))
            (usedInsert_nonneg used pid1 _ hused
              (add_nonneg (usedLookup_nonneg used pid1 hused) (hnn it (by simp))))
            (fun x hx => hnn x (by simp [hx]))
            (fun x hx => hex x (by simp [hx]))
            it0 hmemrest pid0 hpid0 rem hrem hgt

theorem get_unit_ratio_congr (db s : DB) (hu : s.units = db.units) (u : Int) :
    get_unit_ratio s u = get_unit_ratio db u := by
  unfold get_unit_ratio
  rw [hu]

theorem amount_to_base_congr (db s : DB) (hu : s.units = db.units)
    (a : ℚ) (u : Int) : amount_to_base s a u = amount_to_base db a u := by
  unfold amount_to_base
  rw [get_unit_ratio_congr db s hu]

theorem get_batch_remaining_base_congr (db s : DB) (hu : s.units = db.units)
    (hp : s.purchase_items = db.purchase_items)
    (hsi : s.sale_items = db.sale_items) (pid : Int) :
    get_batch_remaining_base s pid = get_batch_remaining_base db pid := by
  unfold get_batch_remaining_base
  rw [hp, hsi]
  simp only [amount_to_base_congr db s hu]

/-- The batch-stock validation of `create_sale` depends on the store only
through its units, purchase items and sale items, so it fails in any state
whose stock tables agree with `db`'s once one member item exceeds its
batch. -/
theorem validate_in_state (db : DB) (items : List SaleItemInput)
    (hnn : ∀ it ∈ items, 0 ≤ amount_to_base db it.amount it.unit_id)
    (hex : ∀ it ∈ items, ∀ pid, it.purchase_item_id = some pid →
      ∃ r, get_batch_remaining_base db pid = .ok r)
    (it0 : SaleItemInput) (hmem : it0 ∈ items) (pid0 : Int)
    (hpid0 : it0.purchase_item_id = some pid0) (rem : ℚ)
    (hrem : get_batch_remaining_base db pid0 = .ok rem)
    (hgt : amount_to_base db it0.amount it0.unit_id > rem + stockEps)
    (s : DB) (hu : s.units = db.units) (hp : s.purchase_items = db.purchase_items)
    (hsi : s.sale_items = db.sale_items) :
    validate_sale_items s items [] = .error insufficientStockMsg := by
  exact validate_sale_items_error s items []
    (fun e he => absurd he (List.not_mem_nil e))
    (fun it hit => by
      rw [amount_to_base_congr db s hu]
      exact hnn it hit)
    (fun it hit pid hpd => by
      rw [get_batch_remaining_base_congr db s hu hp hsi]
      exact hex it hit pid hpd)
    it0 hmem pid0 hpid0 rem
    (by rw [get_batch_remaining_base_congr db s hu hp hsi]; exact hrem)
    (by rw [amount_to_base_congr db s hu]; exact hgt)

theorem if_pay_units (c : Prop) [Decidable c] (s : DB)
    (pay : List SalePaymentRow) :
    (if c then { s with sale_payments := pay } else s).units = s.units := by
  split <;> rfl

theorem if_pay_purchase_items (c : Prop) [Decidable c] (s : DB)
    (pay : List SalePaymentRow) :
    (if c then { s with sale_payments := pay } else s).purchase_items
      = s.purchase_items := by
  split <;> rfl

theorem if_pay_sale_items (c : Prop) [Decidable c] (s : DB)
    (pay : List SalePaymentRow) :
    (if c then { s with sale_payments := pay } else s).sale_items
      = s.sale_items := by
  split <;> rfl

theorem maxByKey_filter_append_ne_none {α : Type} (key : α → Int) (l : List α)
    (a : α) (p : α → Bool) (hp : p a = true) :
    maxByKey key ((l ++ [a]).filter p) ≠ none := by
  intro h
  obtain ⟨m, hm⟩ := maxByKey_isSome key _
    (List.ne_nil_of_mem (List.mem_filter.mpr
      ⟨List.mem_append_right _ (List.mem_singleton_self a), hp⟩))
  rw [hm] at h
  exact Option.noConfusion h

/-- When all of a sale's items have nonnegative base amounts, all referenced
batches exist and some member item alone exceeds its batch's remaining base
quantity plus `stockEps`, `create_sale` returns the insufficient-stock error
and the final state carries no new sale items and unchanged batch
quantities (though earlier inserts of the call do persist). -/
theorem create_sale_oversell_aux (db : DB) (customer_id : Int) (date : String)
    (notes : Option String) (currency_id : Option Int)
    (exchange_rate paid_amount : ℚ) (additional_costs : List (String × ℚ))
    (items : List SaleItemInput) (service_items : List ServiceItemInput)
    (order_discount_type : Option String) (order_discount_value : ℚ)
    (hnn : ∀ it ∈ items, 0 ≤ amount_to_base db it.amount it.unit_id)
    (hex : ∀ it ∈ items, ∀ pid, it.purchase_item_id = some pid →
      ∃ r, get_batch_remaining_base db pid = .ok r)
    (it0 : SaleItemInput) (hmem : it0 ∈ items) (pid0 : Int)
    (hpid0 : it0.purchase_item_id = some pid0) (rem : ℚ)
    (hrem : get_batch_remaining_base db pid0 = .ok rem)
    (hgt : amount_to_base db it0.amount it0.unit_id > rem + stockEps) :
    ∃ db', create_sale db customer_id date notes currency_id exchange_rate
        paid_amount additional_costs items service_items
        order_discount_type order_discount_value
      = (.error insufficientStockMsg, db') ∧
      db'.sale_items = db.sale_items ∧
      ∀ pid, get_batch_remaining_base db' pid = get_batch_remaining_base db pid := by
  have hemp : (items.isEmpty && service_items.isEmpty) = false := by
    cases items with
    | nil => exact absurd hmem (List.not_mem_nil it0)
    | cons a l => rfl
  simp only [create_sale, hemp, Bool.false_eq_true, if_false]
  split
  · exact absurd (by assumption) (maxByKey_filter_append_ne_none _ _ _ _ (by simp))
  · split
    · rename_i e heq2
      rw [validate_in_state db items hnn hex it0 hmem pid0 hpid0 rem hrem hgt] at heq2
      · injection heq2 with hmsg
        subst hmsg
        refine ⟨_, rfl, ?_, ?_⟩
        · rw [if_pay_sale_items, (post_sale_journal_pres _ _ _ _ _ _ _).2.2.1]
        · intro pid
          exact get_batch_remaining_base_congr db _
            (by rw [if_pay_units, (post_sale_journal_pres _ _ _ _ _ _ _).1])
            (by rw [if_pay_purchase_items, (post_sale_journal_pres _ _ _ _ _ _ _).2.1])
            (by rw [if_pay_sale_items, (post_sale_journal_pres _ _ _ _ _ _ _).2.2.1])
            pid
      · rw [if_pay_units, (post_sale_journal_pres _ _ _ _ _ _ _).1]
      · rw [if_pay_purchase_items, (post_sale_journal_pres _ _ _ _ _ _ _).2.1]
      · rw [if_pay_sale_items, (post_sale_journal_pres _ _ _ _ _ _ _).2.2.1]
    · rename_i v heq2
      rw [validate_in_state db items hnn hex it0 hmem pid0 hpid0 rem hrem hgt] at heq2
      · exact Except.noConfusion heq2
      · rw [if_pay_units, (post_sale_journal_pres _ _ _ _ _ _ _).1]
      · rw [if_pay_purchase_items, (post_sale_journal_pres _ _ _ _ _ _ _).2.1]
      · rw [if_pay_sale_items, (post_sale_journal_pres _ _ _ _ _ _ _).2.2.1]

set_option maxHeartbeats 1600000 in
/-- C1: counterexample to the claim that inserting a sale line whose base
amount exceeds the batch's remaining quantity plus 1e-9 always fails.  The
`create_sale` validation accumulates per-batch usage across the whole item
list, and a preceding item with a negative amount drives the accumulator
negative: with batch 10 holding 10 base units, the item list
`[itemNeg, itemBig]` (amounts -100 and 50 against batch 10) passes
validation and the call succeeds, inserting a sale-items row of 50 base
units against the batch even though 50 exceeds 10 + 1e-9. -/
theorem c1_counterexample :
    itemBig.purchase_item_id = some 10 ∧
    get_batch_remaining_base dbStock 10 = .ok 10 ∧
    amount_to_base dbStock itemBig.amount itemBig.unit_id > 10 + stockEps ∧
    (create_sale dbStock 1 "d" none none 1 0 [] [itemNeg, itemBig] [] none 0).1.toOption.isSome
      = true ∧
    ((create_sale dbStock 1 "d" none none 1 0 [] [itemNeg, itemBig] [] none 0).2.sale_items.map
      (fun si => (si.amount, si.purchase_item_id)))
      = [(-100, some 10), (50, some 10)] := by
  refine ⟨rfl, ?_, ?_, ?_, ?_⟩
  · norm_num [get_batch_remaining_base, dbStock, emptyDB, amount_to_base,
      get_unit_ratio, round6, rustRound]
  · norm_num [amount_to_base, get_unit_ratio, dbStock, emptyDB, itemBig, stockEps]
  · norm_num [create_sale, dbStock, emptyDB, itemBig, itemNeg,
      validate_sale_items, usedLookup, usedInsert, amount_to_base,
      get_unit_ratio, get_batch_remaining_base, round6, round2, rustRound,
      stockEps, compute_discount_amount, maxByKey, post_sale_journal,
      base_currency_id_of, insert_sale_items, insert_sale_service_items,
      Except.toOption, Option.isSome]
  · norm_num [create_sale, dbStock, emptyDB, itemBig, itemNeg,
      validate_sale_items, usedLookup, usedInsert, amount_to_base,
      get_unit_ratio, get_batch_remaining_base, round6, round2, rustRound,
      stockEps, compute_discount_amount, maxByKey, post_sale_journal,
      base_currency_id_of, insert_sale_items, insert_sale_service_items]

/-- C1 (amended): a single oversized sale line is always rejected.  First,
`create_sale_item` referencing a batch whose remaining base quantity is `rem`
fails with the insufficient-stock error and leaves the store unchanged
whenever the proposed base amount exceeds `rem + stockEps`.  Second,
`create_sale` rejects with the same error - leaving `sale_items` and every
batch's remaining quantity unchanged - provided every item's base amount is
nonnegative and every referenced batch exists, whenever some member item
exceeds its batch's remaining quantity plus `stockEps`; the nonnegativity
proviso is necessary by `c1_counterexample`. -/
theorem c1_no_oversell :
    (∀ (db : DB) (sale_id product_id unit_id : Int) (per_price amount : ℚ)
        (pid : Int) (sale_type discount_type : Option String)
        (discount_value : ℚ) (rem : ℚ),
      get_batch_remaining_base db pid = .ok rem →
      amount_to_base db amount unit_id > rem + stockEps →
      create_sale_item db sale_id product_id unit_id per_price amount (some pid)
          sale_type discount_type discount_value
        = (.error insufficientStockMsg, db)) ∧
    (∀ (db : DB) (customer_id : Int) (date : String) (notes : Option String)
        (currency_id : Option Int) (exchange_rate paid_amount : ℚ)
        (additional_costs : List (String × ℚ)) (items : List SaleItemInput)
        (service_items : List ServiceItemInput)
        (order_discount_type : Option String) (order_discount_value : ℚ),
      (∀ it ∈ items, 0 ≤ amount_to_base db it.amount it.unit_id) →
      (∀ it ∈ items, ∀ pid, it.purchase_item_id = some pid →
        ∃ r, get_batch_remaining_base db pid = .ok r) →
      ∀ it0 ∈ items, ∀ pid0, it0.purchase_item_id = some pid0 →
      ∀ rem, get_batch_remaining_base db pid0 = .ok rem →
      amount_to_base db it0.amount it0.unit_id > rem + stockEps →
      (create_sale db customer_id date notes currency_id exchange_rate
          paid_amount additional_costs items service_items
          order_discount_type order_discount_value).1
        = .error insufficientStockMsg ∧
      (create_sale db customer_id date notes currency_id exchange_rate
          paid_amount additional_costs items service_items
          order_discount_type order_discount_value).2.sale_items
        = db.sale_items ∧
      ∀ pid, get_batch_remaining_base
          (create_sale db customer_id date notes currency_id exchange_rate
            paid_amount additional_costs items service_items
            order_discount_type order_discount_value).2 pid
        = get_batch_remaining_base db pid) := by
  constructor
  · intro db sid p u pp a pid st dt dv rem hrem hgt
    simp only [create_sale_item, hrem]
    rw [if_pos hgt]
  · intro db customer_id date notes currency_id exchange_rate paid_amount
      additional_costs items service_items odt odv hnn hex it0 hmem pid0 hpid0
      rem hrem hgt
    obtain ⟨db', heq, h1, h2⟩ := create_sale_oversell_aux db customer_id date
      notes currency_id exchange_rate paid_amount additional_costs items
      service_items odt odv hnn hex it0 hmem pid0 hpid0 rem hrem hgt
    rw [heq]
    exact ⟨rfl, h1, h2⟩

/-- C1 witness: both parts of `c1_no_oversell` at a concrete store - batch 10
holds 10 base units and the single proposed line consumes 50. -/
theorem c1_witness :
    create_sale_item dbStock 1 1 1 5 50 (some 10) none none 0
      = (.error insufficientStockMsg, dbStock) ∧
    (create_sale dbStock 1 "d" none none 1 0 [] [itemBig] [] none 0).1
      = .error insufficientStockMsg ∧
    (create_sale dbStock 1 "d" none none 1 0 [] [itemBig] [] none 0).2.sale_items
      = dbStock.sale_items :=
  ⟨c1_no_oversell.1 dbStock 1 1 1 5 50 10 none none 0 10
    (by norm_num [get_batch_remaining_base, dbStock, emptyDB, amount_to_base,
      get_unit_ratio, round6, rustRound])
    (by norm_num [amount_to_base, get_unit_ratio, dbStock, emptyDB, stockEps]),
   (c1_no_oversell.2 dbStock 1 "d" none none 1 0 [] [itemBig] [] none 0
    (by
      intro it hit
      rw [List.mem_singleton] at hit
      subst hit
      norm_num [amount_to_base, get_unit_ratio, dbStock, emptyDB, itemBig])
    (by
      intro it hit pid hpd
      rw [List.mem_singleton] at hit
      subst hit
      simp only [itemBig] at hpd
      injection hpd with hpd'
      subst hpd'
      exact ⟨10, by norm_num [get_batch_remaining_base, dbStock, emptyDB,
        amount_to_base, get_unit_ratio, round6, rustRound]⟩)
    itemBig (List.mem_singleton_self itemBig) 10 rfl 10
    (by norm_num [get_batch_remaining_base, dbStock, emptyDB, amount_to_base,
      get_unit_ratio, round6, rustRound])
    (by norm_num [amount_to_base, get_unit_ratio, dbStock, emptyDB, itemBig,
      stockEps])).1,
   (c1_no_oversell.2 dbStock 1 "d" none none 1 0 [] [itemBig] [] none 0
    (by
      intro it hit
      rw [List.mem_singleton] at hit
      subst hit
      norm_num [amount_to_base, get_unit_ratio, dbStock, emptyDB, itemBig])
    (by
      intro it hit pid hpd
      rw [List.mem_singleton] at hit
      subst hit
      simp only [itemBig] at hpd
      injection hpd with hpd'
      subst hpd'
      exact ⟨10, by norm_num [get_batch_remaining_base, dbStock, emptyDB,
        amount_to_base, get_unit_ratio, round6, rustRound]⟩)
    itemBig (List.mem_singleton_self itemBig) 10 rfl 10
    (by norm_num [get_batch_remaining_base, dbStock, emptyDB, amount_to_base,
      get_unit_ratio, round6, rustRound])
    (by norm_num [amount_to_base, get_unit_ratio, dbStock, emptyDB, itemBig,
      stockEps])).2.1⟩

set_option maxHeartbeats 1600000 in
/-- C2: the source runs `create_sale` without a transaction, so a
batch-stock validation failure does not roll back the statements already
executed.  On a store with one batch of 10 base units, a sale of 50 base
units with a positive paid amount fails with the insufficient-stock error,
yet the final state retains the inserted sale row and the inserted
sale-payment row, violating the spec's atomicity requirement. -/
theorem c2_no_rollback :
    (create_sale dbStock 1 "d" none none 1 5 [] [itemBig] [] none 0).1
      = .error insufficientStockMsg ∧
    (create_sale dbStock 1 "d" none none 1 5 [] [itemBig] [] none 0).2.sales.length
      = 1 ∧
    (create_sale dbStock 1 "d" none none 1 5 [] [itemBig] [] none 0).2.sale_payments.length
      = 1 ∧
    dbStock.sales.length = 0 ∧ dbStock.sale_payments.length = 0 := by
  refine ⟨?_, ?_, ?_, rfl, rfl⟩ <;>
    norm_num [create_sale, dbStock, emptyDB, itemBig, validate_sale_items,
      usedLookup, usedInsert, amount_to_base, get_unit_ratio,
      get_batch_remaining_base, round6, round2, rustRound, stockEps,
      compute_discount_amount, maxByKey, post_sale_journal,
      base_currency_id_of, insufficientStockMsg]

end Shafaf
